import Mathlib

/-!
Shallow embedding of `azurerm/resource_arm_function_app.go` from the
terraform-provider-azurerm repository, together with proofs about the
CRUD lifecycle functions of the `azurerm_function_app` resource.

Go maps (`map[string]string`, `map[string]*web.ConnStringValueTypePair`)
are embedded as association lists with overwrite-on-insert semantics;
Go nil-able pointers become `Option`; a remote API client becomes an
explicit environment record holding the outcome of each remote call, and
each lifecycle function returns its result together with the list of
remote calls it issued, in order.
-/

namespace FunctionApp

/-! ### Association-list model of Go string maps -/

/-- Insert with overwrite: the semantics of `m[k] = v` on a Go map. -/
def mapInsert (m : List (String × String)) (k v : String) : List (String × String) :=
  match m with
  | [] => [(k, v)]
  | (k', v') :: rest => if k' = k then (k, v) :: rest else (k', v') :: mapInsert rest k v

/-- Lookup: the semantics of `m[k]` on a Go map (`none` when the key is absent). -/
def mapLookup (m : List (String × String)) (k : String) : Option String :=
  match m with
  | [] => none
  | (k', v') :: rest => if k' = k then some v' else mapLookup rest k

/-- Key removal: the semantics of `delete(m, k)` on a Go map. -/
def mapDelete (m : List (String × String)) (k : String) : List (String × String) :=
  match m with
  | [] => []
  | (k', v') :: rest => if k' = k then mapDelete rest k else (k', v') :: mapDelete rest k

/-- Key membership test on the Go-map model. -/
def mapHasKey (m : List (String × String)) (k : String) : Bool :=
  (mapLookup m k).isSome

/-! ### Data model mirroring the SDK types used by the source file -/

/-- Mirrors `web.NameValuePair` (both pointer fields are always set by this file). -/
structure NameValuePair where
  name : String
  value : String
deriving DecidableEq, Repr

/-- Mirrors `web.ConnStringValueTypePair`: a connection-string value and its type. -/
structure ConnStringValueTypePair where
  value : String
  connType : String
deriving DecidableEq, Repr

/-- One element of the `connection_string` schema list: a (name, value, type) triple. -/
structure ConnectionStringEntry where
  name : String
  value : String
  connType : String
deriving DecidableEq, Repr

/-- Mirrors `web.SiteConfig` restricted to the fields this file touches. -/
structure SiteConfig where
  alwaysOn : Option Bool := none
  use32BitWorkerProcess : Option Bool := none
  webSocketsEnabled : Option Bool := none
  appSettings : Option (List NameValuePair) := none
deriving DecidableEq, Repr

/-- One element of the `site_config` schema list as the framework hands it to the
code: each field is present (`some`) exactly when the corresponding map key is. -/
structure SiteConfigBlock where
  always_on : Option Bool := none
  use_32_bit_worker_process : Option Bool := none
  websockets_enabled : Option Bool := none
deriving DecidableEq, Repr

/-- Mirrors `web.SiteProperties` restricted to the fields this file reads. -/
structure SiteProperties where
  serverFarmID : Option String := none
  enabled : Option Bool := none
  defaultHostName : Option String := none
  httpsOnly : Option Bool := none
  outboundIPAddresses : Option String := none
  clientAffinityEnabled : Option Bool := none
deriving DecidableEq, Repr

/-- Mirrors `web.Site` as returned by the `Get` remote call. -/
structure Site where
  id : Option String := none
  location : Option String := none
  props : Option SiteProperties := none
  tags : List (String × String) := []
deriving DecidableEq, Repr

/-- Mirrors `web.ResourceNameAvailability`, the response of the availability check;
both fields are nil-able pointers in the SDK. -/
structure AvailabilityResponse where
  nameAvailable : Option Bool := none
  message : Option String := none
deriving DecidableEq, Repr

/-- Payload of the `CreateOrUpdate` call as assembled by Create (`web.Site` envelope). -/
structure SiteEnvelope where
  kind : String
  location : String
  tags : List (String × String)
  serverFarmID : String
  enabled : Bool
  clientAffinityEnabled : Bool
  siteConfig : SiteConfig
deriving DecidableEq, Repr

/-- Outcome of the remote `Get` call: in Go, `Get` returns a response and an error,
and on a non-nil error the response can still be inspected for a 404 status
(`utils.ResponseWasNotFound`). -/
inductive GetOutcome where
  | ok (site : Site)
  | err (e : String) (notFound : Bool)
deriving DecidableEq, Repr

/-- Outcome of the remote `Delete` call, with the same 404 convention as `Get`. -/
inductive DeleteOutcome where
  | ok
  | err (e : String) (notFound : Bool)
deriving DecidableEq, Repr

/-- Environment of remote-call outcomes: one field per remote API call the file
can issue. Each lifecycle function consults only the fields for its own calls. -/
structure RemoteEnv where
  checkNameAvailability : Except String AvailabilityResponse
  createOrUpdate : Except String Unit
  waitForCompletion : Except String Unit
  get : GetOutcome
  listApplicationSettings : Except String (List (String × String))
  listConnectionStrings : Except String (List (String × ConnStringValueTypePair))
  getConfiguration : Except String (Option SiteConfig)
  updateApplicationSettings : Except String Unit
  createOrUpdateConfiguration : Except String Unit
  updateConnectionStrings : Except String Unit
  delete : DeleteOutcome
deriving Repr

/-- A remote call as recorded in an operation trace, with its payload. -/
inductive RemoteCall where
  | checkNameAvailability (name : String)
  | createOrUpdate (resGroup name : String) (site : SiteEnvelope)
  | waitForCompletion
  | get (resGroup name : String)
  | updateApplicationSettings (resGroup name : String) (settings : List (String × String))
  | createOrUpdateConfiguration (resGroup name : String) (cfg : SiteConfig)
  | updateConnectionStrings (resGroup name : String)
      (cs : List (String × ConnStringValueTypePair))
  | listApplicationSettings (resGroup name : String)
  | listConnectionStrings (resGroup name : String)
  | getConfiguration (resGroup name : String)
  | delete (resGroup name : String) (deleteMetrics deleteEmptyServerFarm : Bool)
deriving DecidableEq, Repr

/-- Errors surfaced by a lifecycle function. `wrapped` is a `fmt.Errorf` that
embeds an operation description, the resource name and the underlying remote
error; `raw` is a remote error returned as-is (`return err`); `message` is a
locally produced error with no underlying remote error. -/
inductive AppError where
  | raw (e : String)
  | wrapped (operation : String) (resourceName : String) (e : String)
  | message (msg : String)
deriving DecidableEq, Repr

/-- Result of a lifecycle function: success with the resulting state, an error,
or a nil-pointer dereference (Go runtime panic). -/
inductive OpResult (α : Type) where
  | ok (val : α)
  | error (e : AppError)
  | panic
deriving DecidableEq, Repr

/-- The flat resource state/configuration handled through `schema.ResourceData`. -/
structure ResourceData where
  id : String
  name : String
  resource_group_name : String
  location : String
  app_service_plan_id : String
  enabled : Bool
  client_affinity_enabled : Bool
  https_only : Bool
  version : String
  storage_connection_string : String
  app_settings : List (String × String)
  connection_string : List ConnectionStringEntry
  site_config : List SiteConfigBlock
  tags : List (String × String)
  default_hostname : String
  outbound_ip_addresses : String
deriving DecidableEq, Repr

/-- Parsed Azure resource ID, restricted to the two components this file uses
(`id.ResourceGroup` and `id.Path["sites"]`). -/
structure ResourceID where
  resourceGroup : String
  sitesName : String
deriving DecidableEq, Repr

/-- Splits a character list on the slash character (kernel-reducible analogue of
`strings.Split(s, "/")`). -/
def splitCharsOnSlash : List Char → List (List Char)
  | [] => [[]]
  | c :: rest =>
    let r := splitCharsOnSlash rest
    if c = '/' then [] :: r
    else
      match r with
      | [] => [[c]]
      | g :: gs => (c :: g) :: gs

/-- Splits a string on slashes. -/
def splitOnSlash (s : String) : List String :=
  (splitCharsOnSlash s.data).map (fun cs => String.mk cs)

/-- Modelled from the spec: `parseAzureResourceID` lives in shared provider code
outside this file. It splits a fully-qualified Azure resource ID of the form
`/subscriptions/S/resourceGroups/RG/providers/Microsoft.Web/sites/NAME` into its
components, failing on anything else (in particular on the empty string). -/
def parseAzureResourceID (id : String) : Except String ResourceID :=
  match splitOnSlash id with
  | ["", "subscriptions", _, "resourceGroups", rg, "providers", "Microsoft.Web", "sites", nm] =>
      Except.ok { resourceGroup := rg, sitesName := nm }
  | _ => Except.error ("Cannot parse Azure Resource ID " ++ id)

/-- Modelled from the spec: `azureRMNormalizeLocation` lives in shared provider
code outside this file; it canonicalizes a location string (lower-case, spaces
removed). No claim depends on the exact normalization. -/
def azureRMNormalizeLocation (s : String) : String :=
  String.mk ((s.data.filter (fun c => c ≠ ' ')).map Char.toLower)

/-! ### Translation of the helper functions of the source file -/

/-- Translation of `getBasicFunctionAppAppSettings`: the five implicitly-managed
app settings, derived from the configuration. -/
def getBasicFunctionAppAppSettings (d : ResourceData) : List NameValuePair :=
  let dashboardPropName := "AzureWebJobsDashboard"
  let storagePropName := "AzureWebJobsStorage"
  let functionVersionPropName := "FUNCTIONS_EXTENSION_VERSION"
  let contentSharePropName := "WEBSITE_CONTENTSHARE"
  let contentFileConnStringPropName := "WEBSITE_CONTENTAZUREFILECONNECTIONSTRING"
  let storageConnection := d.storage_connection_string
  let functionVersion := d.version
  let contentShare := d.name ++ "-content"
  [ { name := dashboardPropName, value := storageConnection },
    { name := storagePropName, value := storageConnection },
    { name := functionVersionPropName, value := functionVersion },
    { name := contentSharePropName, value := contentShare },
    { name := contentFileConnStringPropName, value := storageConnection } ]

/-- Modelled from the spec: `expandAppServiceAppSettings` lives in the shared App
Service code outside this file; it converts the user-supplied `app_settings`
attribute into the key-to-string map sent to the API. -/
def expandAppServiceAppSettings (d : ResourceData) : List (String × String) :=
  d.app_settings.foldl (fun m p => mapInsert m p.1 p.2) []

/-- Translation of `expandFunctionAppAppSettings`: the user-supplied settings with
each of the five implicit settings written on top. -/
def expandFunctionAppAppSettings (d : ResourceData) : List (String × String) :=
  (getBasicFunctionAppAppSettings d).foldl (fun output p => mapInsert output p.name p.value)
    (expandAppServiceAppSettings d)

/-- Modelled from the spec: `flattenAppServiceAppSettings` lives in the shared App
Service code outside this file; it converts the remote app-settings properties
into the key-to-string map surfaced to the user. -/
def flattenAppServiceAppSettings (props : List (String × String)) : List (String × String) :=
  props.foldl (fun m p => mapInsert m p.1 p.2) []

/-- Translation of `expandFunctionAppSiteConfig`: reads the single optional
`site_config` block into a `web.SiteConfig`. -/
def expandFunctionAppSiteConfig (d : ResourceData) : SiteConfig :=
  match d.site_config with
  | [] => {}
  | config :: _ =>
    { alwaysOn := config.always_on,
      use32BitWorkerProcess := config.use_32_bit_worker_process,
      webSocketsEnabled := config.websockets_enabled }

/-- Translation of `flattenFunctionAppSiteConfig`: a nil config flattens to the
empty list, otherwise to one block carrying whichever fields were set. -/
def flattenFunctionAppSiteConfig (input : Option SiteConfig) : List SiteConfigBlock :=
  match input with
  | none => []
  | some c =>
    [ { always_on := c.alwaysOn,
        use_32_bit_worker_process := c.use32BitWorkerProcess,
        websockets_enabled := c.webSocketsEnabled } ]

/-- Insert with overwrite on the connection-strings Go map. -/
def csInsert (m : List (String × ConnStringValueTypePair)) (k : String)
    (v : ConnStringValueTypePair) : List (String × ConnStringValueTypePair) :=
  match m with
  | [] => [(k, v)]
  | (k', v') :: rest => if k' = k then (k, v) :: rest else (k', v') :: csInsert rest k v

/-- Translation of `expandFunctionAppConnectionStrings`: builds the name-keyed map
of value/type pairs from the `connection_string` list. -/
def expandFunctionAppConnectionStrings (d : ResourceData) :
    List (String × ConnStringValueTypePair) :=
  d.connection_string.foldl
    (fun output v => csInsert output v.name { value := v.value, connType := v.connType }) []

/-- Translation of `flattenFunctionAppConnectionStrings`: one (name, type, value)
entry per key of the map. -/
def flattenFunctionAppConnectionStrings (input : List (String × ConnStringValueTypePair)) :
    List ConnectionStringEntry :=
  input.map (fun p => { name := p.1, connType := p.2.connType, value := p.2.value })

/-! ### Translation of the four lifecycle functions -/

/-- Translation of `resourceArmFunctionAppRead`: returns the operation outcome and
the list of remote calls issued. A not-found `Get` clears the id and succeeds. -/
def resourceArmFunctionAppRead (d : ResourceData) (env : RemoteEnv) :
    OpResult ResourceData × List RemoteCall :=
  match parseAzureResourceID d.id with
  | .error e => (.error (.message e), [])
  | .ok rid =>
    let resGroup := rid.resourceGroup
    let name := rid.sitesName
    match env.get with
    | .err e notFound =>
      if notFound then (.ok { d with id := "" }, [.get resGroup name])
      else (.error (.wrapped "making Read request on AzureRM Function App" name e),
        [.get resGroup name])
    | .ok resp =>
      match env.listApplicationSettings with
      | .error e =>
        (.error (.wrapped "making Read request on AzureRM Function App AppSettings" name e),
          [.get resGroup name, .listApplicationSettings resGroup name])
      | .ok appSettingsProps =>
        match env.listConnectionStrings with
        | .error e =>
          (.error (.wrapped "making Read request on AzureRM Function App ConnectionStrings" name e),
            [.get resGroup name, .listApplicationSettings resGroup name,
             .listConnectionStrings resGroup name])
        | .ok csProps =>
          let d1 := { d with name := name, resource_group_name := resGroup }
          let d2 := match resp.location with
            | some loc => { d1 with location := azureRMNormalizeLocation loc }
            | none => d1
          let d3 := match resp.props with
            | some props =>
              { d2 with
                app_service_plan_id := props.serverFarmID.getD "",
                enabled := props.enabled.getD false,
                default_hostname := props.defaultHostName.getD "",
                https_only := props.httpsOnly.getD false,
                outbound_ip_addresses := props.outboundIPAddresses.getD "",
                client_affinity_enabled := props.clientAffinityEnabled.getD false }
            | none => d2
          let appSettings := flattenAppServiceAppSettings appSettingsProps
          let d4 := { d3 with
            storage_connection_string := (mapLookup appSettings "AzureWebJobsStorage").getD "",
            version := (mapLookup appSettings "FUNCTIONS_EXTENSION_VERSION").getD "" }
          let stripped := mapDelete (mapDelete (mapDelete (mapDelete (mapDelete appSettings
            "AzureWebJobsDashboard") "AzureWebJobsStorage") "FUNCTIONS_EXTENSION_VERSION")
            "WEBSITE_CONTENTSHARE") "WEBSITE_CONTENTAZUREFILECONNECTIONSTRING"
          let d5 := { d4 with
            app_settings := stripped,
            connection_string := flattenFunctionAppConnectionStrings csProps }
          match env.getConfiguration with
          | .error e =>
            (.error (.wrapped "making Read request on AzureRM Function App Configuration" name e),
              [.get resGroup name, .listApplicationSettings resGroup name,
               .listConnectionStrings resGroup name, .getConfiguration resGroup name])
          | .ok cfg =>
            let d6 := { d5 with
              site_config := flattenFunctionAppSiteConfig cfg,
              tags := resp.tags }
            (.ok d6,
              [.get resGroup name, .listApplicationSettings resGroup name,
               .listConnectionStrings resGroup name, .getConfiguration resGroup name])

/-- The `if d.HasChange("app_settings") || d.HasChange("version")` block of
`resourceArmFunctionAppUpdate`: `some` error aborts the update. -/
def updateAppSettingsStep (dOld dNew : ResourceData) (env : RemoteEnv)
    (resGroup name : String) : Option AppError × List RemoteCall :=
  if dOld.app_settings ≠ dNew.app_settings ∨ dOld.version ≠ dNew.version then
    let appSettings := expandFunctionAppAppSettings dNew
    match env.updateApplicationSettings with
    | .error e => (some (.wrapped "updating Application Settings for Function App" name e),
        [.updateApplicationSettings resGroup name appSettings])
    | .ok _ => (none, [.updateApplicationSettings resGroup name appSettings])
  else (none, [])

/-- The `if d.HasChange("site_config")` block of `resourceArmFunctionAppUpdate`. -/
def updateSiteConfigStep (dOld dNew : ResourceData) (env : RemoteEnv)
    (resGroup name : String) : Option AppError × List RemoteCall :=
  if dOld.site_config ≠ dNew.site_config then
    let siteConfig := expandFunctionAppSiteConfig dNew
    match env.createOrUpdateConfiguration with
    | .error e => (some (.wrapped "updating Configuration for Function App" name e),
        [.createOrUpdateConfiguration resGroup name siteConfig])
    | .ok _ => (none, [.createOrUpdateConfiguration resGroup name siteConfig])
  else (none, [])

/-- The `if d.HasChange("connection_string")` block of
`resourceArmFunctionAppUpdate`. -/
def updateConnStringsStep (dOld dNew : ResourceData) (env : RemoteEnv)
    (resGroup name : String) : Option AppError × List RemoteCall :=
  if dOld.connection_string ≠ dNew.connection_string then
    let connectionStrings := expandFunctionAppConnectionStrings dNew
    match env.updateConnectionStrings with
    | .error e => (some (.wrapped "updating Connection Strings for App Service" name e),
        [.updateConnectionStrings resGroup name connectionStrings])
    | .ok _ => (none, [.updateConnectionStrings resGroup name connectionStrings])
  else (none, [])

/-- Translation of `resourceArmFunctionAppUpdate`: the framework's
`d.HasChange(attr)` is inequality between the previous state `dOld` and the new
configuration `dNew` on that attribute; a failing step returns its error at once
and the final step is a full `Read`. -/
def resourceArmFunctionAppUpdate (dOld dNew : ResourceData) (env : RemoteEnv) :
    OpResult ResourceData × List RemoteCall :=
  match parseAzureResourceID dNew.id with
  | .error e => (.error (.message e), [])
  | .ok rid =>
    let resGroup := rid.resourceGroup
    let name := rid.sitesName
    match updateAppSettingsStep dOld dNew env resGroup name with
    | (some err, tr) => (.error err, tr)
    | (none, tr1) =>
      match updateSiteConfigStep dOld dNew env resGroup name with
      | (some err, tr2) => (.error err, tr1 ++ tr2)
      | (none, tr2) =>
        match updateConnStringsStep dOld dNew env resGroup name with
        | (some err, tr3) => (.error err, tr1 ++ tr2 ++ tr3)
        | (none, tr3) =>
          let readResult := resourceArmFunctionAppRead dNew env
          (readResult.1, tr1 ++ tr2 ++ tr3 ++ readResult.2)

/-- The `web.Site` envelope assembled by Create (the `siteEnvelope` local of the
source, with the basic app settings merged into the site configuration). -/
def createSiteEnvelope (dNew : ResourceData) : SiteEnvelope :=
  let kind := "functionapp"
  let location := azureRMNormalizeLocation dNew.location
  let basicAppSettings := getBasicFunctionAppAppSettings dNew
  let siteConfig0 := expandFunctionAppSiteConfig dNew
  let siteConfig := { siteConfig0 with appSettings := some basicAppSettings }
  { kind := kind,
    location := location,
    tags := dNew.tags,
    serverFarmID := dNew.app_service_plan_id,
    enabled := dNew.enabled,
    clientAffinityEnabled := dNew.client_affinity_enabled,
    siteConfig := siteConfig }

/-- Translation of `resourceArmFunctionAppCreate`: availability check, payload
build, create-or-update with completion wait, confirming `Get`, then a tail call
into Update. Dereferencing a nil SDK pointer is `OpResult.panic`. -/
def resourceArmFunctionAppCreate (dOld dNew : ResourceData) (env : RemoteEnv) :
    OpResult ResourceData × List RemoteCall :=
  let name := dNew.name
  match env.checkNameAvailability with
  | .error e => (.error (.wrapped "checking if the name was available" name e),
      [.checkNameAvailability name])
  | .ok available =>
    match available.nameAvailable with
    | none => (.panic, [.checkNameAvailability name])
    | some isAvailable =>
      if !isAvailable then
        match available.message with
        | none => (.panic, [.checkNameAvailability name])
        | some msg =>
          (.error (.message ("The name " ++ name ++
              " used for the Function App needs to be globally unique and is not available: " ++
              msg)),
            [.checkNameAvailability name])
      else
        let resGroup := dNew.resource_group_name
        let siteEnvelope := createSiteEnvelope dNew
        let tr0 := [RemoteCall.checkNameAvailability name,
                    RemoteCall.createOrUpdate resGroup name siteEnvelope]
        match env.createOrUpdate with
        | .error e => (.error (.raw e), tr0)
        | .ok _ =>
          match env.waitForCompletion with
          | .error e => (.error (.raw e), tr0 ++ [.waitForCompletion])
          | .ok _ =>
            match env.get with
            | .err e _ => (.error (.raw e), tr0 ++ [.waitForCompletion, .get resGroup name])
            | .ok read =>
              match read.id with
              | none =>
                (.error (.message ("Cannot read Function App " ++ name ++ " (resource group " ++
                    resGroup ++ ") ID")),
                  tr0 ++ [.waitForCompletion, .get resGroup name])
              | some siteID =>
                let d := { dNew with id := siteID }
                let updResult := resourceArmFunctionAppUpdate dOld d env
                (updResult.1, tr0 ++ [.waitForCompletion, .get resGroup name] ++ updResult.2)

/-- Translation of `resourceArmFunctionAppDelete`: a single delete call with
`deleteMetrics = true` and `deleteEmptyServerFarm = false`; a not-found response
is success. -/
def resourceArmFunctionAppDelete (d : ResourceData) (env : RemoteEnv) :
    OpResult Unit × List RemoteCall :=
  match parseAzureResourceID d.id with
  | .error e => (.error (.message e), [])
  | .ok rid =>
    let resGroup := rid.resourceGroup
    let name := rid.sitesName
    let deleteMetrics := true
    let deleteEmptyServerFarm := false
    let tr := [RemoteCall.delete resGroup name deleteMetrics deleteEmptyServerFarm]
    match env.delete with
    | .err e notFound => if notFound then (.ok (), tr) else (.error (.raw e), tr)
    | .ok => (.ok (), tr)

/-- True exactly on errors: used to state that an operation did not error. -/
def OpResult.isError {α : Type} : OpResult α → Bool
  | .error _ => true
  | _ => false

/-- True exactly on `wrapped` errors, the ones carrying operation context and the
resource name. -/
def AppError.isWrapped : AppError → Bool
  | .wrapped _ _ _ => true
  | _ => false

/-- True when the trace contains an `UpdateApplicationSettings` call. -/
def traceHasUpdateAppSettings (tr : List RemoteCall) : Bool :=
  tr.any fun c => match c with
    | .updateApplicationSettings _ _ _ => true
    | _ => false

/-- True when the trace contains a `CreateOrUpdateConfiguration` call. -/
def traceHasUpdateSiteConfig (tr : List RemoteCall) : Bool :=
  tr.any fun c => match c with
    | .createOrUpdateConfiguration _ _ _ => true
    | _ => false

/-- True when the trace contains an `UpdateConnectionStrings` call. -/
def traceHasUpdateConnStrings (tr : List RemoteCall) : Bool :=
  tr.any fun c => match c with
    | .updateConnectionStrings _ _ _ => true
    | _ => false

/-- True on the read-only calls issued by `resourceArmFunctionAppRead`. -/
def isReadCall : RemoteCall → Bool
  | .get _ _ => true
  | .listApplicationSettings _ _ => true
  | .listConnectionStrings _ _ => true
  | .getConfiguration _ _ => true
  | _ => false

/-! ### Lemmas about the Go-map model -/

theorem mapLookup_mapInsert_self (m : List (String × String)) (k v : String) :
    mapLookup (mapInsert m k v) k = some v := by
  induction m with
  | nil => simp [mapInsert, mapLookup]
  | cons p rest ih =>
    by_cases h : p.1 = k
    · simp [mapInsert, mapLookup, h]
    · simp [mapInsert, mapLookup, h, ih]

theorem mapLookup_mapInsert_ne (m : List (String × String)) (k' v k : String)
    (h : k' ≠ k) : mapLookup (mapInsert m k' v) k = mapLookup m k := by
  induction m with
  | nil => simp [mapInsert, mapLookup, h]
  | cons p rest ih =>
    by_cases hp : p.1 = k'
    · simp [mapInsert, mapLookup, hp, h, ih]
    · simp only [mapInsert, hp, if_false, mapLookup]
      by_cases hk : p.1 = k
      · simp [hk]
      · simp [hk, ih]

theorem mapLookup_mapDelete_self (m : List (String × String)) (k : String) :
    mapLookup (mapDelete m k) k = none := by
  induction m with
  | nil => simp [mapDelete, mapLookup]
  | cons p rest ih =>
    by_cases h : p.1 = k
    · simpa [mapDelete, h] using ih
    · simpa [mapDelete, mapLookup, h] using ih

theorem mapLookup_mapDelete_ne (m : List (String × String)) (k' k : String)
    (h : k' ≠ k) : mapLookup (mapDelete m k') k = mapLookup m k := by
  induction m with
  | nil => simp [mapDelete, mapLookup]
  | cons p rest ih =>
    by_cases hp : p.1 = k'
    · simp [mapDelete, mapLookup, hp, h, ih]
    · by_cases hk : p.1 = k
      · simp [mapDelete, mapLookup, hp, hk, Ne.symm h]
      · simp [mapDelete, mapLookup, hp, hk, ih]

/-- The expansion of the app settings is the user map with the five implicit
settings inserted on top, in source order. -/
theorem expandFunctionAppAppSettings_eq (d : ResourceData) :
    expandFunctionAppAppSettings d =
      mapInsert (mapInsert (mapInsert (mapInsert (mapInsert (expandAppServiceAppSettings d)
        "AzureWebJobsDashboard" d.storage_connection_string)
        "AzureWebJobsStorage" d.storage_connection_string)
        "FUNCTIONS_EXTENSION_VERSION" d.version)
        "WEBSITE_CONTENTSHARE" (d.name ++ "-content"))
        "WEBSITE_CONTENTAZUREFILECONNECTIONSTRING" d.storage_connection_string := rfl

/-- Looking up each of the five implicit keys in the expanded app-settings map
gives the configuration-derived value, whatever the user-supplied settings are. -/
theorem lookup_expandFunctionAppAppSettings (d : ResourceData) :
    mapLookup (expandFunctionAppAppSettings d) "AzureWebJobsDashboard" =
        some d.storage_connection_string ∧
    mapLookup (expandFunctionAppAppSettings d) "AzureWebJobsStorage" =
        some d.storage_connection_string ∧
    mapLookup (expandFunctionAppAppSettings d) "FUNCTIONS_EXTENSION_VERSION" =
        some d.version ∧
    mapLookup (expandFunctionAppAppSettings d) "WEBSITE_CONTENTSHARE" =
        some (d.name ++ "-content") ∧
    mapLookup (expandFunctionAppAppSettings d) "WEBSITE_CONTENTAZUREFILECONNECTIONSTRING" =
        some d.storage_connection_string := by
  rw [expandFunctionAppAppSettings_eq]
  refine ⟨?_, ?_, ?_, ?_, ?_⟩
  · rw [mapLookup_mapInsert_ne _ _ _ _ (by decide), mapLookup_mapInsert_ne _ _ _ _ (by decide),
      mapLookup_mapInsert_ne _ _ _ _ (by decide), mapLookup_mapInsert_ne _ _ _ _ (by decide),
      mapLookup_mapInsert_self]
  · rw [mapLookup_mapInsert_ne _ _ _ _ (by decide), mapLookup_mapInsert_ne _ _ _ _ (by decide),
      mapLookup_mapInsert_ne _ _ _ _ (by decide), mapLookup_mapInsert_self]
  · rw [mapLookup_mapInsert_ne _ _ _ _ (by decide), mapLookup_mapInsert_ne _ _ _ _ (by decide),
      mapLookup_mapInsert_self]
  · rw [mapLookup_mapInsert_ne _ _ _ _ (by decide), mapLookup_mapInsert_self]
  · rw [mapLookup_mapInsert_self]

/-! ### Structural lemmas about the lifecycle functions -/

/-- Every call issued by Read is one of the four read-only calls. -/
theorem read_trace_readonly (d : ResourceData) (env : RemoteEnv) :
    ∀ c ∈ (resourceArmFunctionAppRead d env).2, isReadCall c = true := by
  intro c hc
  unfold resourceArmFunctionAppRead at hc
  repeat' split at hc
  all_goals simp only [List.mem_cons, List.mem_singleton, List.not_mem_nil, or_false] at hc
  all_goals (repeat' rcases hc with rfl | hc)
  all_goals rfl

/-- A not-found `Get` makes Read clear the id and succeed after one call. -/
theorem read_notFound_spec (d : ResourceData) (env : RemoteEnv) (rid : ResourceID)
    (hparse : parseAzureResourceID d.id = Except.ok rid) (e : String)
    (hget : env.get = GetOutcome.err e true) :
    resourceArmFunctionAppRead d env =
      (OpResult.ok { d with id := "" }, [RemoteCall.get rid.resourceGroup rid.sitesName]) := by
  unfold resourceArmFunctionAppRead
  simp only [hparse, hget]
  rfl

/-- A non-not-found `Get` failure makes Read return a wrapped error after one call. -/
theorem read_getFail_spec (d : ResourceData) (env : RemoteEnv) (rid : ResourceID)
    (hparse : parseAzureResourceID d.id = Except.ok rid) (e : String)
    (hget : env.get = GetOutcome.err e false) :
    resourceArmFunctionAppRead d env =
      (OpResult.error (AppError.wrapped "making Read request on AzureRM Function App"
         rid.sitesName e),
       [RemoteCall.get rid.resourceGroup rid.sitesName]) := by
  unfold resourceArmFunctionAppRead
  simp only [hparse, hget]
  rfl

/-- A failing `ListApplicationSettings` makes Read return a wrapped error. -/
theorem read_lasFail_spec (d : ResourceData) (env : RemoteEnv) (rid : ResourceID)
    (hparse : parseAzureResourceID d.id = Except.ok rid) (site : Site)
    (hget : env.get = GetOutcome.ok site) (e : String)
    (hlas : env.listApplicationSettings = Except.error e) :
    resourceArmFunctionAppRead d env =
      (OpResult.error (AppError.wrapped "making Read request on AzureRM Function App AppSettings"
         rid.sitesName e),
       [RemoteCall.get rid.resourceGroup rid.sitesName,
        RemoteCall.listApplicationSettings rid.resourceGroup rid.sitesName]) := by
  unfold resourceArmFunctionAppRead
  simp only [hparse, hget, hlas]

/-- A failing `ListConnectionStrings` makes Read return a wrapped error. -/
theorem read_lcsFail_spec (d : ResourceData) (env : RemoteEnv) (rid : ResourceID)
    (hparse : parseAzureResourceID d.id = Except.ok rid) (site : Site)
    (hget : env.get = GetOutcome.ok site) (props : List (String × String))
    (hlas : env.listApplicationSettings = Except.ok props) (e : String)
    (hlcs : env.listConnectionStrings = Except.error e) :
    resourceArmFunctionAppRead d env =
      (OpResult.error
         (AppError.wrapped "making Read request on AzureRM Function App ConnectionStrings"
           rid.sitesName e),
       [RemoteCall.get rid.resourceGroup rid.sitesName,
        RemoteCall.listApplicationSettings rid.resourceGroup rid.sitesName,
        RemoteCall.listConnectionStrings rid.resourceGroup rid.sitesName]) := by
  unfold resourceArmFunctionAppRead
  simp only [hparse, hget, hlas, hlcs]

/-- A failing `GetConfiguration` makes Read return a wrapped error. -/
theorem read_cfgFail_spec (d : ResourceData) (env : RemoteEnv) (rid : ResourceID)
    (hparse : parseAzureResourceID d.id = Except.ok rid) (site : Site)
    (hget : env.get = GetOutcome.ok site) (props : List (String × String))
    (hlas : env.listApplicationSettings = Except.ok props)
    (csProps : List (String × ConnStringValueTypePair))
    (hlcs : env.listConnectionStrings = Except.ok csProps) (e : String)
    (hcfg : env.getConfiguration = Except.error e) :
    resourceArmFunctionAppRead d env =
      (OpResult.error
         (AppError.wrapped "making Read request on AzureRM Function App Configuration"
           rid.sitesName e),
       [RemoteCall.get rid.resourceGroup rid.sitesName,
        RemoteCall.listApplicationSettings rid.resourceGroup rid.sitesName,
        RemoteCall.listConnectionStrings rid.resourceGroup rid.sitesName,
        RemoteCall.getConfiguration rid.resourceGroup rid.sitesName]) := by
  unfold resourceArmFunctionAppRead
  simp only [hparse, hget, hlas, hlcs, hcfg]

/-- On a successful full Read, the stored `app_settings` map is the flattened
remote map with the five implicit keys deleted. -/
theorem read_ok_app_settings (d : ResourceData) (env : RemoteEnv) (site : Site)
    (d' : ResourceData) (tr : List RemoteCall)
    (hget : env.get = GetOutcome.ok site)
    (hread : resourceArmFunctionAppRead d env = (OpResult.ok d', tr)) :
    ∃ props, env.listApplicationSettings = Except.ok props ∧
      d'.app_settings =
        mapDelete (mapDelete (mapDelete (mapDelete (mapDelete
          (flattenAppServiceAppSettings props)
          "AzureWebJobsDashboard") "AzureWebJobsStorage") "FUNCTIONS_EXTENSION_VERSION")
          "WEBSITE_CONTENTSHARE") "WEBSITE_CONTENTAZUREFILECONNECTIONSTRING" := by
  unfold resourceArmFunctionAppRead at hread
  cases hp : parseAzureResourceID d.id with
  | error e => simp only [hp] at hread; simp at hread
  | ok rid =>
    simp only [hp, hget] at hread
    cases hlas : env.listApplicationSettings with
    | error e => simp only [hlas] at hread; simp at hread
    | ok props =>
      simp only [hlas] at hread
      cases hlcs : env.listConnectionStrings with
      | error e => simp only [hlcs] at hread; simp at hread
      | ok csProps =>
        simp only [hlcs] at hread
        cases hcfg : env.getConfiguration with
        | error e => simp only [hcfg] at hread; simp at hread
        | ok cfg =>
          simp only [hcfg] at hread
          refine ⟨props, rfl, ?_⟩
          rw [Prod.mk.injEq] at hread
          obtain ⟨hres, -⟩ := hread
          rw [OpResult.ok.injEq] at hres
          subst hres
          cases hsl : site.location <;> cases hsp : site.props <;> simp [hsl, hsp]

/-- Case analysis of the app-settings step of Update: skipped when neither
`app_settings` nor `version` changed, otherwise it issues exactly one
`UpdateApplicationSettings` call carrying the expanded settings. -/
theorem updateAppSettingsStep_spec (dOld dNew : ResourceData) (env : RemoteEnv)
    (rg nm : String) :
    (¬(dOld.app_settings ≠ dNew.app_settings ∨ dOld.version ≠ dNew.version) ∧
      updateAppSettingsStep dOld dNew env rg nm = (none, [])) ∨
    ((dOld.app_settings ≠ dNew.app_settings ∨ dOld.version ≠ dNew.version) ∧
      ((env.updateApplicationSettings = Except.ok () ∧
        updateAppSettingsStep dOld dNew env rg nm =
          (none,
           [RemoteCall.updateApplicationSettings rg nm (expandFunctionAppAppSettings dNew)])) ∨
       (∃ e, env.updateApplicationSettings = Except.error e ∧
        updateAppSettingsStep dOld dNew env rg nm =
          (some (AppError.wrapped "updating Application Settings for Function App" nm e),
           [RemoteCall.updateApplicationSettings rg nm (expandFunctionAppAppSettings dNew)])))) := by
  by_cases h : dOld.app_settings ≠ dNew.app_settings ∨ dOld.version ≠ dNew.version
  · refine Or.inr ⟨h, ?_⟩
    cases he : env.updateApplicationSettings with
    | error e =>
      refine Or.inr ⟨e, rfl, ?_⟩
      unfold updateAppSettingsStep
      rw [if_pos h, he]
    | ok u =>
      cases u
      refine Or.inl ⟨rfl, ?_⟩
      unfold updateAppSettingsStep
      rw [if_pos h, he]
  · refine Or.inl ⟨h, ?_⟩
    unfold updateAppSettingsStep
    rw [if_neg h]

/-- Case analysis of the site-config step of Update. -/
theorem updateSiteConfigStep_spec (dOld dNew : ResourceData) (env : RemoteEnv)
    (rg nm : String) :
    (¬dOld.site_config ≠ dNew.site_config ∧
      updateSiteConfigStep dOld dNew env rg nm = (none, [])) ∨
    (dOld.site_config ≠ dNew.site_config ∧
      ((env.createOrUpdateConfiguration = Except.ok () ∧
        updateSiteConfigStep dOld dNew env rg nm =
          (none,
           [RemoteCall.createOrUpdateConfiguration rg nm (expandFunctionAppSiteConfig dNew)])) ∨
       (∃ e, env.createOrUpdateConfiguration = Except.error e ∧
        updateSiteConfigStep dOld dNew env rg nm =
          (some (AppError.wrapped "updating Configuration for Function App" nm e),
           [RemoteCall.createOrUpdateConfiguration rg nm
              (expandFunctionAppSiteConfig dNew)])))) := by
  by_cases h : dOld.site_config ≠ dNew.site_config
  · refine Or.inr ⟨h, ?_⟩
    cases he : env.createOrUpdateConfiguration with
    | error e =>
      refine Or.inr ⟨e, rfl, ?_⟩
      unfold updateSiteConfigStep
      rw [if_pos h, he]
    | ok u =>
      cases u
      refine Or.inl ⟨rfl, ?_⟩
      unfold updateSiteConfigStep
      rw [if_pos h, he]
  · refine Or.inl ⟨h, ?_⟩
    unfold updateSiteConfigStep
    rw [if_neg h]

/-- Case analysis of the connection-strings step of Update. -/
theorem updateConnStringsStep_spec (dOld dNew : ResourceData) (env : RemoteEnv)
    (rg nm : String) :
    (¬dOld.connection_string ≠ dNew.connection_string ∧
      updateConnStringsStep dOld dNew env rg nm = (none, [])) ∨
    (dOld.connection_string ≠ dNew.connection_string ∧
      ((env.updateConnectionStrings = Except.ok () ∧
        updateConnStringsStep dOld dNew env rg nm =
          (none,
           [RemoteCall.updateConnectionStrings rg nm
              (expandFunctionAppConnectionStrings dNew)])) ∨
       (∃ e, env.updateConnectionStrings = Except.error e ∧
        updateConnStringsStep dOld dNew env rg nm =
          (some (AppError.wrapped "updating Connection Strings for App Service" nm e),
           [RemoteCall.updateConnectionStrings rg nm
              (expandFunctionAppConnectionStrings dNew)])))) := by
  by_cases h : dOld.connection_string ≠ dNew.connection_string
  · refine Or.inr ⟨h, ?_⟩
    cases he : env.updateConnectionStrings with
    | error e =>
      refine Or.inr ⟨e, rfl, ?_⟩
      unfold updateConnStringsStep
      rw [if_pos h, he]
    | ok u =>
      cases u
      refine Or.inl ⟨rfl, ?_⟩
      unfold updateConnStringsStep
      rw [if_pos h, he]
  · refine Or.inl ⟨h, ?_⟩
    unfold updateConnStringsStep
    rw [if_neg h]

/-- When the app-settings update call fails, Update stops with its wrapped error
after exactly that one call. -/
theorem update_appSettingsFail_spec (dOld dNew : ResourceData) (env : RemoteEnv)
    (rid : ResourceID) (hparse : parseAzureResourceID dNew.id = Except.ok rid)
    (hch : dOld.app_settings ≠ dNew.app_settings ∨ dOld.version ≠ dNew.version)
    (e : String) (he : env.updateApplicationSettings = Except.error e) :
    resourceArmFunctionAppUpdate dOld dNew env =
      (OpResult.error
         (AppError.wrapped "updating Application Settings for Function App" rid.sitesName e),
       [RemoteCall.updateApplicationSettings rid.resourceGroup rid.sitesName
          (expandFunctionAppAppSettings dNew)]) := by
  have hstep : updateAppSettingsStep dOld dNew env rid.resourceGroup rid.sitesName =
      (some (AppError.wrapped "updating Application Settings for Function App" rid.sitesName e),
       [RemoteCall.updateApplicationSettings rid.resourceGroup rid.sitesName
          (expandFunctionAppAppSettings dNew)]) := by
    unfold updateAppSettingsStep
    rw [if_pos hch, he]
  unfold resourceArmFunctionAppUpdate
  simp only [hparse, hstep]

/-- When the site-configuration update call fails (the app-settings call, if
issued, having succeeded), Update stops with its wrapped error right after the
failed call; the trace holds the earlier call followed by the failed one. -/
theorem update_siteConfigFail_spec (dOld dNew : ResourceData) (env : RemoteEnv)
    (rid : ResourceID) (hparse : parseAzureResourceID dNew.id = Except.ok rid)
    (h1 : env.updateApplicationSettings = Except.ok ())
    (hch : dOld.site_config ≠ dNew.site_config)
    (e : String) (he : env.createOrUpdateConfiguration = Except.error e) :
    resourceArmFunctionAppUpdate dOld dNew env =
      (OpResult.error
         (AppError.wrapped "updating Configuration for Function App" rid.sitesName e),
       (if dOld.app_settings ≠ dNew.app_settings ∨ dOld.version ≠ dNew.version then
          [RemoteCall.updateApplicationSettings rid.resourceGroup rid.sitesName
             (expandFunctionAppAppSettings dNew)]
        else []) ++
       [RemoteCall.createOrUpdateConfiguration rid.resourceGroup rid.sitesName
          (expandFunctionAppSiteConfig dNew)]) := by
  have hstep1 : updateAppSettingsStep dOld dNew env rid.resourceGroup rid.sitesName =
      (none,
       if dOld.app_settings ≠ dNew.app_settings ∨ dOld.version ≠ dNew.version then
         [RemoteCall.updateApplicationSettings rid.resourceGroup rid.sitesName
            (expandFunctionAppAppSettings dNew)]
       else []) := by
    by_cases hc1 : dOld.app_settings ≠ dNew.app_settings ∨ dOld.version ≠ dNew.version
    · simp only [updateAppSettingsStep, if_pos hc1, h1]
    · simp only [updateAppSettingsStep, if_neg hc1]
  have hstep2 : updateSiteConfigStep dOld dNew env rid.resourceGroup rid.sitesName =
      (some (AppError.wrapped "updating Configuration for Function App" rid.sitesName e),
       [RemoteCall.createOrUpdateConfiguration rid.resourceGroup rid.sitesName
          (expandFunctionAppSiteConfig dNew)]) := by
    unfold updateSiteConfigStep
    rw [if_pos hch, he]
  unfold resourceArmFunctionAppUpdate
  simp only [hparse, hstep1, hstep2]

/-- When the connection-strings update call fails (the earlier calls, if issued,
having succeeded), Update stops with its wrapped error right after the failed
call. -/
theorem update_connStringsFail_spec (dOld dNew : ResourceData) (env : RemoteEnv)
    (rid : ResourceID) (hparse : parseAzureResourceID dNew.id = Except.ok rid)
    (h1 : env.updateApplicationSettings = Except.ok ())
    (h2 : env.createOrUpdateConfiguration = Except.ok ())
    (hch : dOld.connection_string ≠ dNew.connection_string)
    (e : String) (he : env.updateConnectionStrings = Except.error e) :
    resourceArmFunctionAppUpdate dOld dNew env =
      (OpResult.error
         (AppError.wrapped "updating Connection Strings for App Service" rid.sitesName e),
       ((if dOld.app_settings ≠ dNew.app_settings ∨ dOld.version ≠ dNew.version then
           [RemoteCall.updateApplicationSettings rid.resourceGroup rid.sitesName
              (expandFunctionAppAppSettings dNew)]
         else []) ++
        (if dOld.site_config ≠ dNew.site_config then
           [RemoteCall.createOrUpdateConfiguration rid.resourceGroup rid.sitesName
              (expandFunctionAppSiteConfig dNew)]
         else [])) ++
       [RemoteCall.updateConnectionStrings rid.resourceGroup rid.sitesName
          (expandFunctionAppConnectionStrings dNew)]) := by
  have hstep1 : updateAppSettingsStep dOld dNew env rid.resourceGroup rid.sitesName =
      (none,
       if dOld.app_settings ≠ dNew.app_settings ∨ dOld.version ≠ dNew.version then
         [RemoteCall.updateApplicationSettings rid.resourceGroup rid.sitesName
            (expandFunctionAppAppSettings dNew)]
       else []) := by
    by_cases hc1 : dOld.app_settings ≠ dNew.app_settings ∨ dOld.version ≠ dNew.version
    · simp only [updateAppSettingsStep, if_pos hc1, h1]
    · simp only [updateAppSettingsStep, if_neg hc1]
  have hstep2 : updateSiteConfigStep dOld dNew env rid.resourceGroup rid.sitesName =
      (none,
       if dOld.site_config ≠ dNew.site_config then
         [RemoteCall.createOrUpdateConfiguration rid.resourceGroup rid.sitesName
            (expandFunctionAppSiteConfig dNew)]
       else []) := by
    by_cases hc2 : dOld.site_config ≠ dNew.site_config
    · simp only [updateSiteConfigStep, if_pos hc2, h2]
    · simp only [updateSiteConfigStep, if_neg hc2]
  have hstep3 : updateConnStringsStep dOld dNew env rid.resourceGroup rid.sitesName =
      (some (AppError.wrapped "updating Connection Strings for App Service" rid.sitesName e),
       [RemoteCall.updateConnectionStrings rid.resourceGroup rid.sitesName
          (expandFunctionAppConnectionStrings dNew)]) := by
    unfold updateConnStringsStep
    rw [if_pos hch, he]
  unfold resourceArmFunctionAppUpdate
  simp only [hparse, hstep1, hstep2, hstep3]

/-- A read-only trace contains no `UpdateApplicationSettings` call. -/
theorem readonly_noUAS (tr : List RemoteCall) (h : ∀ c ∈ tr, isReadCall c = true) :
    traceHasUpdateAppSettings tr = false := by
  rw [traceHasUpdateAppSettings, List.any_eq_false]
  intro c hc
  have := h c hc
  cases c <;> simp_all [isReadCall]

/-- A read-only trace contains no `CreateOrUpdateConfiguration` call. -/
theorem readonly_noUSC (tr : List RemoteCall) (h : ∀ c ∈ tr, isReadCall c = true) :
    traceHasUpdateSiteConfig tr = false := by
  rw [traceHasUpdateSiteConfig, List.any_eq_false]
  intro c hc
  have := h c hc
  cases c <;> simp_all [isReadCall]

/-- A read-only trace contains no `UpdateConnectionStrings` call. -/
theorem readonly_noUCS (tr : List RemoteCall) (h : ∀ c ∈ tr, isReadCall c = true) :
    traceHasUpdateConnStrings tr = false := by
  rw [traceHasUpdateConnStrings, List.any_eq_false]
  intro c hc
  have := h c hc
  cases c <;> simp_all [isReadCall]

theorem traceHasUAS_nil : traceHasUpdateAppSettings [] = false := rfl

theorem traceHasUSC_nil : traceHasUpdateSiteConfig [] = false := rfl

theorem traceHasUCS_nil : traceHasUpdateConnStrings [] = false := rfl

theorem traceHasUAS_on_uas (rg nm : String) (s : List (String × String)) :
    traceHasUpdateAppSettings [RemoteCall.updateApplicationSettings rg nm s] = true := rfl

theorem traceHasUAS_on_couc (rg nm : String) (c : SiteConfig) :
    traceHasUpdateAppSettings [RemoteCall.createOrUpdateConfiguration rg nm c] = false := rfl

theorem traceHasUAS_on_ucs (rg nm : String) (c : List (String × ConnStringValueTypePair)) :
    traceHasUpdateAppSettings [RemoteCall.updateConnectionStrings rg nm c] = false := rfl

theorem traceHasUSC_on_uas (rg nm : String) (s : List (String × String)) :
    traceHasUpdateSiteConfig [RemoteCall.updateApplicationSettings rg nm s] = false := rfl

theorem traceHasUSC_on_couc (rg nm : String) (c : SiteConfig) :
    traceHasUpdateSiteConfig [RemoteCall.createOrUpdateConfiguration rg nm c] = true := rfl

theorem traceHasUSC_on_ucs (rg nm : String) (c : List (String × ConnStringValueTypePair)) :
    traceHasUpdateSiteConfig [RemoteCall.updateConnectionStrings rg nm c] = false := rfl

theorem traceHasUCS_on_uas (rg nm : String) (s : List (String × String)) :
    traceHasUpdateConnStrings [RemoteCall.updateApplicationSettings rg nm s] = false := rfl

theorem traceHasUCS_on_couc (rg nm : String) (c : SiteConfig) :
    traceHasUpdateConnStrings [RemoteCall.createOrUpdateConfiguration rg nm c] = false := rfl

theorem traceHasUCS_on_ucs (rg nm : String) (c : List (String × ConnStringValueTypePair)) :
    traceHasUpdateConnStrings [RemoteCall.updateConnectionStrings rg nm c] = true := rfl

theorem traceHasUAS_cons (c : RemoteCall) (tr : List RemoteCall) :
    traceHasUpdateAppSettings (c :: tr) =
      ((match c with | RemoteCall.updateApplicationSettings _ _ _ => true | _ => false) ||
        traceHasUpdateAppSettings tr) := by
  simp [traceHasUpdateAppSettings]

theorem traceHasUSC_cons (c : RemoteCall) (tr : List RemoteCall) :
    traceHasUpdateSiteConfig (c :: tr) =
      ((match c with | RemoteCall.createOrUpdateConfiguration _ _ _ => true | _ => false) ||
        traceHasUpdateSiteConfig tr) := by
  simp [traceHasUpdateSiteConfig]

theorem traceHasUCS_cons (c : RemoteCall) (tr : List RemoteCall) :
    traceHasUpdateConnStrings (c :: tr) =
      ((match c with | RemoteCall.updateConnectionStrings _ _ _ => true | _ => false) ||
        traceHasUpdateConnStrings tr) := by
  simp [traceHasUpdateConnStrings]

theorem traceHasUAS_append (a b : List RemoteCall) :
    traceHasUpdateAppSettings (a ++ b) =
      (traceHasUpdateAppSettings a || traceHasUpdateAppSettings b) := by
  simp [traceHasUpdateAppSettings]

theorem traceHasUSC_append (a b : List RemoteCall) :
    traceHasUpdateSiteConfig (a ++ b) =
      (traceHasUpdateSiteConfig a || traceHasUpdateSiteConfig b) := by
  simp [traceHasUpdateSiteConfig]

theorem traceHasUCS_append (a b : List RemoteCall) :
    traceHasUpdateConnStrings (a ++ b) =
      (traceHasUpdateConnStrings a || traceHasUpdateConnStrings b) := by
  simp [traceHasUpdateConnStrings]

/-- Under a parseable id and successful first two update calls, each of the three
targeted calls appears in the Update trace exactly when its change condition
holds; the app-settings call condition includes a `version` change. -/
theorem update_calls_iff (dOld dNew : ResourceData) (env : RemoteEnv) (rid : ResourceID)
    (hparse : parseAzureResourceID dNew.id = Except.ok rid)
    (h1 : env.updateApplicationSettings = Except.ok ())
    (h2 : env.createOrUpdateConfiguration = Except.ok ()) :
    (traceHasUpdateAppSettings (resourceArmFunctionAppUpdate dOld dNew env).2 = true ↔
       (dOld.app_settings ≠ dNew.app_settings ∨ dOld.version ≠ dNew.version)) ∧
    (traceHasUpdateSiteConfig (resourceArmFunctionAppUpdate dOld dNew env).2 = true ↔
       dOld.site_config ≠ dNew.site_config) ∧
    (traceHasUpdateConnStrings (resourceArmFunctionAppUpdate dOld dNew env).2 = true ↔
       dOld.connection_string ≠ dNew.connection_string) := by
  have hnoUAS := readonly_noUAS _ (read_trace_readonly dNew env)
  have hnoUSC := readonly_noUSC _ (read_trace_readonly dNew env)
  have hnoUCS := readonly_noUCS _ (read_trace_readonly dNew env)
  have hstep1 : updateAppSettingsStep dOld dNew env rid.resourceGroup rid.sitesName =
      (none,
       if dOld.app_settings ≠ dNew.app_settings ∨ dOld.version ≠ dNew.version then
         [RemoteCall.updateApplicationSettings rid.resourceGroup rid.sitesName
            (expandFunctionAppAppSettings dNew)]
       else []) := by
    by_cases hc1 : dOld.app_settings ≠ dNew.app_settings ∨ dOld.version ≠ dNew.version
    · simp only [updateAppSettingsStep, if_pos hc1, h1]
    · simp only [updateAppSettingsStep, if_neg hc1]
  have hstep2 : updateSiteConfigStep dOld dNew env rid.resourceGroup rid.sitesName =
      (none,
       if dOld.site_config ≠ dNew.site_config then
         [RemoteCall.createOrUpdateConfiguration rid.resourceGroup rid.sitesName
            (expandFunctionAppSiteConfig dNew)]
       else []) := by
    by_cases hc2 : dOld.site_config ≠ dNew.site_config
    · simp only [updateSiteConfigStep, if_pos hc2, h2]
    · simp only [updateSiteConfigStep, if_neg hc2]
  unfold resourceArmFunctionAppUpdate
  simp only [hparse, hstep1, hstep2]
  rcases updateConnStringsStep_spec dOld dNew env rid.resourceGroup rid.sitesName with
    ⟨hc3, he3⟩ | ⟨hc3, ⟨h3a, he3⟩ | ⟨e3, h3a, he3⟩⟩ <;>
    simp only [he3] <;>
    by_cases hc1 : dOld.app_settings ≠ dNew.app_settings ∨ dOld.version ≠ dNew.version <;>
    by_cases hc2 : dOld.site_config ≠ dNew.site_config <;>
    simp [hc1, hc2, hc3, traceHasUAS_append, traceHasUSC_append, traceHasUCS_append,
      traceHasUAS_nil, traceHasUSC_nil, traceHasUCS_nil, traceHasUAS_cons,
      traceHasUSC_cons, traceHasUCS_cons, hnoUAS, hnoUSC, hnoUCS]

/-- Any `UpdateApplicationSettings` call recorded in an Update trace carries
exactly the expanded app-settings map of the new configuration. -/
theorem update_uas_payload (dOld dNew : ResourceData) (env : RemoteEnv) (rg nm : String)
    (s : List (String × String))
    (hmem : RemoteCall.updateApplicationSettings rg nm s ∈
      (resourceArmFunctionAppUpdate dOld dNew env).2) :
    s = expandFunctionAppAppSettings dNew := by
  unfold resourceArmFunctionAppUpdate at hmem
  split at hmem
  · simp at hmem
  · rename_i rid heq
    have h1shape : ∀ s', RemoteCall.updateApplicationSettings rg nm s' ∈
        (updateAppSettingsStep dOld dNew env rid.resourceGroup rid.sitesName).2 →
        s' = expandFunctionAppAppSettings dNew := by
      rcases updateAppSettingsStep_spec dOld dNew env rid.resourceGroup rid.sitesName with
        ⟨hc1, he1⟩ | ⟨hc1, ⟨h1a, he1⟩ | ⟨e1, h1a, he1⟩⟩ <;> intro s' hs' <;> rw [he1] at hs' <;>
        simp at hs'
      · exact hs'.2.2
      · exact hs'.2.2
    have h2no : RemoteCall.updateApplicationSettings rg nm s ∉
        (updateSiteConfigStep dOld dNew env rid.resourceGroup rid.sitesName).2 := by
      rcases updateSiteConfigStep_spec dOld dNew env rid.resourceGroup rid.sitesName with
        ⟨_, he⟩ | ⟨_, ⟨_, he⟩ | ⟨e2, _, he⟩⟩ <;> simp [he]
    have h3no : RemoteCall.updateApplicationSettings rg nm s ∉
        (updateConnStringsStep dOld dNew env rid.resourceGroup rid.sitesName).2 := by
      rcases updateConnStringsStep_spec dOld dNew env rid.resourceGroup rid.sitesName with
        ⟨_, he⟩ | ⟨_, ⟨_, he⟩ | ⟨e3, _, he⟩⟩ <;> simp [he]
    have hRno : RemoteCall.updateApplicationSettings rg nm s ∉
        (resourceArmFunctionAppRead dNew env).2 := by
      intro hmm
      have := read_trace_readonly dNew env _ hmm
      simp [isReadCall] at this
    rcases hs1 : updateAppSettingsStep dOld dNew env rid.resourceGroup rid.sitesName
      with ⟨o1, t1⟩
    cases o1 with
    | some e1 =>
      simp only [hs1] at hmem
      exact h1shape s (by rw [hs1]; simpa using hmem)
    | none =>
      simp only [hs1] at hmem
      rcases hs2 : updateSiteConfigStep dOld dNew env rid.resourceGroup rid.sitesName
        with ⟨o2, t2⟩
      rw [hs2] at h2no
      simp only [] at h2no
      cases o2 with
      | some e2 =>
        simp only [hs2] at hmem
        have ht1 : RemoteCall.updateApplicationSettings rg nm s ∈ t1 := by
          simp only [List.mem_append] at hmem
          tauto
        exact h1shape s (by rw [hs1]; simpa using ht1)
      | none =>
        simp only [hs2] at hmem
        rcases hs3 : updateConnStringsStep dOld dNew env rid.resourceGroup rid.sitesName
          with ⟨o3, t3⟩
        rw [hs3] at h3no
        simp only [] at h3no
        cases o3 with
        | some e3 =>
          simp only [hs3] at hmem
          have ht1 : RemoteCall.updateApplicationSettings rg nm s ∈ t1 := by
            simp only [List.mem_append] at hmem
            tauto
          exact h1shape s (by rw [hs1]; simpa using ht1)
        | none =>
          simp only [hs3] at hmem
          have ht1 : RemoteCall.updateApplicationSettings rg nm s ∈ t1 := by
            simp only [List.mem_append] at hmem
            tauto
          exact h1shape s (by rw [hs1]; simpa using ht1)

/-- A failing availability check makes Create return a wrapped error after the
single availability call. -/
theorem create_checkFail_spec (dOld dNew : ResourceData) (env : RemoteEnv) (e : String)
    (hc : env.checkNameAvailability = Except.error e) :
    resourceArmFunctionAppCreate dOld dNew env =
      (OpResult.error (AppError.wrapped "checking if the name was available" dNew.name e),
       [RemoteCall.checkNameAvailability dNew.name]) := by
  unfold resourceArmFunctionAppCreate
  simp only [hc]

/-- When the availability check reports the name unavailable, Create stops after
the availability call, with an error when the message pointer is populated and a
panic when it is nil. -/
theorem create_unavailable_spec (dOld dNew : ResourceData) (env : RemoteEnv)
    (avail : AvailabilityResponse) (hc : env.checkNameAvailability = Except.ok avail)
    (hna : avail.nameAvailable = some false) :
    (resourceArmFunctionAppCreate dOld dNew env).2 =
      [RemoteCall.checkNameAvailability dNew.name] ∧
    (∀ msg, avail.message = some msg →
      (resourceArmFunctionAppCreate dOld dNew env).1 =
        OpResult.error (AppError.message ("The name " ++ dNew.name ++
          " used for the Function App needs to be globally unique and is not available: " ++
          msg))) ∧
    (avail.message = none → (resourceArmFunctionAppCreate dOld dNew env).1 = OpResult.panic) := by
  unfold resourceArmFunctionAppCreate
  cases hm : avail.message with
  | none => simp [hc, hna, hm]
  | some msg => simp [hc, hna, hm]

/-- When the availability check reports the name unavailable (or not populated),
no `CreateOrUpdate` call is issued. -/
theorem create_not_available_no_cou (dOld dNew : ResourceData) (env : RemoteEnv)
    (rg nm : String) (payload : SiteEnvelope)
    (hmem : RemoteCall.createOrUpdate rg nm payload ∈
      (resourceArmFunctionAppCreate dOld dNew env).2) :
    ∃ avail, env.checkNameAvailability = Except.ok avail ∧
      avail.nameAvailable = some true := by
  unfold resourceArmFunctionAppCreate at hmem
  cases hc : env.checkNameAvailability with
  | error e => simp [hc] at hmem
  | ok avail =>
    cases hna : avail.nameAvailable with
    | none => simp [hc, hna] at hmem
    | some b =>
      cases b with
      | false =>
        cases hm : avail.message with
        | none => simp [hc, hna, hm] at hmem
        | some msg => simp [hc, hna, hm] at hmem
      | true => exact ⟨avail, rfl, hna⟩

/-- When the availability check reports the name available, the trace starts with
the availability call followed immediately by the `CreateOrUpdate` call carrying
the assembled site envelope. -/
theorem create_available_trace (dOld dNew : ResourceData) (env : RemoteEnv)
    (avail : AvailabilityResponse) (hc : env.checkNameAvailability = Except.ok avail)
    (hna : avail.nameAvailable = some true) :
    ∃ rest, (resourceArmFunctionAppCreate dOld dNew env).2 =
      RemoteCall.checkNameAvailability dNew.name ::
      RemoteCall.createOrUpdate dNew.resource_group_name dNew.name
        (createSiteEnvelope dNew) :: rest := by
  unfold resourceArmFunctionAppCreate
  simp only [hc, hna, Bool.not_true, Bool.false_eq_true, if_false]
  repeat' split
  all_goals exact ⟨_, rfl⟩

/-- A failing `CreateOrUpdate` call makes Create return the raw remote error. -/
theorem create_couFail_spec (dOld dNew : ResourceData) (env : RemoteEnv)
    (avail : AvailabilityResponse) (hc : env.checkNameAvailability = Except.ok avail)
    (hna : avail.nameAvailable = some true) (e : String)
    (he : env.createOrUpdate = Except.error e) :
    resourceArmFunctionAppCreate dOld dNew env =
      (OpResult.error (AppError.raw e),
       [RemoteCall.checkNameAvailability dNew.name,
        RemoteCall.createOrUpdate dNew.resource_group_name dNew.name
          (createSiteEnvelope dNew)]) := by
  unfold resourceArmFunctionAppCreate
  simp only [hc, hna, he]
  rfl

/-- A failing completion wait makes Create return the raw remote error. -/
theorem create_waitFail_spec (dOld dNew : ResourceData) (env : RemoteEnv)
    (avail : AvailabilityResponse) (hc : env.checkNameAvailability = Except.ok avail)
    (hna : avail.nameAvailable = some true)
    (hcou : env.createOrUpdate = Except.ok ()) (e : String)
    (he : env.waitForCompletion = Except.error e) :
    resourceArmFunctionAppCreate dOld dNew env =
      (OpResult.error (AppError.raw e),
       [RemoteCall.checkNameAvailability dNew.name,
        RemoteCall.createOrUpdate dNew.resource_group_name dNew.name
          (createSiteEnvelope dNew),
        RemoteCall.waitForCompletion]) := by
  unfold resourceArmFunctionAppCreate
  simp only [hc, hna, hcou, he]
  rfl

/-- A failing confirming `Get` makes Create return the raw remote error, whether
or not the response was a 404. -/
theorem create_getFail_spec (dOld dNew : ResourceData) (env : RemoteEnv)
    (avail : AvailabilityResponse) (hc : env.checkNameAvailability = Except.ok avail)
    (hna : avail.nameAvailable = some true)
    (hcou : env.createOrUpdate = Except.ok ())
    (hwait : env.waitForCompletion = Except.ok ()) (e : String) (nf : Bool)
    (he : env.get = GetOutcome.err e nf) :
    resourceArmFunctionAppCreate dOld dNew env =
      (OpResult.error (AppError.raw e),
       [RemoteCall.checkNameAvailability dNew.name,
        RemoteCall.createOrUpdate dNew.resource_group_name dNew.name
          (createSiteEnvelope dNew),
        RemoteCall.waitForCompletion,
        RemoteCall.get dNew.resource_group_name dNew.name]) := by
  unfold resourceArmFunctionAppCreate
  simp only [hc, hna, hcou, hwait, he]
  rfl

/-- Delete issues the single delete call with the fixed flags, succeeds on ok and
on not-found, and returns the raw error otherwise. -/
theorem delete_spec (d : ResourceData) (env : RemoteEnv) (rid : ResourceID)
    (hparse : parseAzureResourceID d.id = Except.ok rid) :
    (resourceArmFunctionAppDelete d env).2 =
      [RemoteCall.delete rid.resourceGroup rid.sitesName true false] ∧
    (env.delete = DeleteOutcome.ok → (resourceArmFunctionAppDelete d env).1 = OpResult.ok ()) ∧
    (∀ e, env.delete = DeleteOutcome.err e true →
      (resourceArmFunctionAppDelete d env).1 = OpResult.ok ()) ∧
    (∀ e, env.delete = DeleteOutcome.err e false →
      (resourceArmFunctionAppDelete d env).1 = OpResult.error (AppError.raw e)) := by
  unfold resourceArmFunctionAppDelete
  cases hd : env.delete with
  | ok => simp [hparse, hd]
  | err e nf => cases nf <;> simp [hparse, hd]

/-- Read never panics. -/
theorem read_no_panic (d : ResourceData) (env : RemoteEnv) :
    (resourceArmFunctionAppRead d env).1 ≠ OpResult.panic := by
  unfold resourceArmFunctionAppRead
  repeat' split
  all_goals simp

/-- Update never panics. -/
theorem update_no_panic (dOld dNew : ResourceData) (env : RemoteEnv) :
    (resourceArmFunctionAppUpdate dOld dNew env).1 ≠ OpResult.panic := by
  unfold resourceArmFunctionAppUpdate
  split
  · simp
  · rename_i rid heq
    rcases h1 : updateAppSettingsStep dOld dNew env rid.resourceGroup rid.sitesName
      with ⟨_ | e1, t1⟩
    · rcases h2 : updateSiteConfigStep dOld dNew env rid.resourceGroup rid.sitesName
        with ⟨_ | e2, t2⟩
      · rcases h3 : updateConnStringsStep dOld dNew env rid.resourceGroup rid.sitesName
          with ⟨_ | e3, t3⟩
        · simp [h1, h2, h3, read_no_panic]
        · simp [h1, h2, h3]
      · simp [h1, h2]
    · simp [h1]

/-- Under the populated-response precondition, Create never panics. -/
theorem create_panic_free (dOld dNew : ResourceData) (env : RemoteEnv)
    (hp : ∀ avail, env.checkNameAvailability = Except.ok avail →
      avail.nameAvailable.isSome = true ∧
      (avail.nameAvailable = some false → avail.message.isSome = true)) :
    (resourceArmFunctionAppCreate dOld dNew env).1 ≠ OpResult.panic := by
  unfold resourceArmFunctionAppCreate
  cases hc : env.checkNameAvailability with
  | error e => simp
  | ok avail =>
    obtain ⟨h1, h2⟩ := hp avail hc
    cases hna : avail.nameAvailable with
    | none => rw [hna] at h1; simp at h1
    | some b =>
      cases b with
      | false =>
        have hm := h2 hna
        cases hmsg : avail.message with
        | none => rw [hmsg] at hm; simp at hm
        | some msg => simp [hna, hmsg]
      | true =>
        simp only [hna, Bool.not_true, Bool.false_eq_true, if_false]
        repeat' split
        all_goals simp [update_no_panic]

/-! ### Round-trip of the connection strings -/

theorem csInsert_append (m : List (String × ConnStringValueTypePair)) (k : String)
    (v : ConnStringValueTypePair) (h : k ∉ m.map Prod.fst) :
    csInsert m k v = m ++ [(k, v)] := by
  induction m with
  | nil => rfl
  | cons p rest ih =>
    simp only [List.map_cons, List.mem_cons, not_or] at h
    rw [csInsert, if_neg (fun hh => h.1 hh.symm), ih h.2]
    rfl

theorem expand_foldl_eq (l : List ConnectionStringEntry)
    (acc : List (String × ConnStringValueTypePair))
    (hdisj : ∀ e ∈ l, e.name ∉ acc.map Prod.fst)
    (hnodup : (l.map ConnectionStringEntry.name).Nodup) :
    l.foldl (fun output v => csInsert output v.name { value := v.value, connType := v.connType })
        acc =
      acc ++ l.map (fun e => (e.name, { value := e.value, connType := e.connType })) := by
  induction l generalizing acc with
  | nil => simp
  | cons e rest ih =>
    simp only [List.foldl_cons]
    rw [csInsert_append acc e.name _ (hdisj e (List.mem_cons_self e rest))]
    simp only [List.map_cons, List.nodup_cons] at hnodup
    have hdisj' : ∀ e' ∈ rest,
        e'.name ∉ (acc ++
          [(e.name,
            ({ value := e.value, connType := e.connType } : ConnStringValueTypePair))]).map
          Prod.fst := by
      intro e' he'
      simp only [List.map_append, List.mem_append, not_or, List.map_cons, List.map_nil,
        List.mem_singleton]
      refine ⟨hdisj e' (List.mem_cons_of_mem e he'), ?_⟩
      intro heq
      exact hnodup.1 (heq ▸ List.mem_map_of_mem ConnectionStringEntry.name he')
    rw [ih _ hdisj' hnodup.2]
    simp

/-- With pairwise-distinct names, the expanded connection-strings map is the
input list of pairs, in order. -/
theorem expandFunctionAppConnectionStrings_eq (d : ResourceData)
    (h : (d.connection_string.map ConnectionStringEntry.name).Nodup) :
    expandFunctionAppConnectionStrings d =
      d.connection_string.map
        (fun e => (e.name, { value := e.value, connType := e.connType })) := by
  unfold expandFunctionAppConnectionStrings
  simpa using expand_foldl_eq d.connection_string [] (by simp) h

/-- With pairwise-distinct names, flattening the expanded map gives back exactly
the input list. -/
theorem flatten_expand_connStrings (d : ResourceData)
    (h : (d.connection_string.map ConnectionStringEntry.name).Nodup) :
    flattenFunctionAppConnectionStrings (expandFunctionAppConnectionStrings d) =
      d.connection_string := by
  rw [expandFunctionAppConnectionStrings_eq d h]
  unfold flattenFunctionAppConnectionStrings
  rw [List.map_map]
  apply List.map_id''
  intro e
  cases e
  rfl

/-! ### Concrete fixtures used by witnesses and counterexamples -/

/-- A well-formed Azure resource id for the sample Function App. -/
def sampleID : String :=
  "/subscriptions/s/resourceGroups/rg/providers/Microsoft.Web/sites/app1"

/-- A sample new configuration. -/
def sampleData : ResourceData :=
  { id := sampleID, name := "app1", resource_group_name := "rg", location := "westus",
    app_service_plan_id := "plan", enabled := true, client_affinity_enabled := false,
    https_only := false, version := "~1", storage_connection_string := "cs",
    app_settings := [("custom", "v")], connection_string := [],
    site_config := [], tags := [], default_hostname := "", outbound_ip_addresses := "" }

/-- A sample previous state differing from `sampleData` in `app_settings`. -/
def sampleOld : ResourceData := { sampleData with app_settings := [] }

/-- A sample previous state differing from `sampleData` only in `version`. -/
def sampleOldV : ResourceData := { sampleData with version := "beta" }

/-- A sample site as returned by a successful `Get`. -/
def sampleSite : Site :=
  { id := some sampleID, location := some "westus", props := none, tags := [] }

/-- A sample environment in which every remote call succeeds. -/
def sampleEnv : RemoteEnv :=
  { checkNameAvailability := Except.ok { nameAvailable := some true, message := none },
    createOrUpdate := Except.ok (), waitForCompletion := Except.ok (),
    get := GetOutcome.ok sampleSite,
    listApplicationSettings := Except.ok [("AzureWebJobsStorage", "cs"), ("custom", "v")],
    listConnectionStrings := Except.ok [],
    getConfiguration := Except.ok none,
    updateApplicationSettings := Except.ok (), createOrUpdateConfiguration := Except.ok (),
    updateConnectionStrings := Except.ok (), delete := DeleteOutcome.ok }

/-- The app-settings payload Update sends for `sampleData`. -/
def sampleSent : List (String × String) := expandFunctionAppAppSettings sampleData

/-- The state a successful Read of `sampleData` under `sampleEnv` produces. -/
def sampleReadState : ResourceData :=
  match (resourceArmFunctionAppRead sampleData sampleEnv).1 with
  | OpResult.ok v => v
  | _ => sampleData

/-- Environment whose availability check reports the name taken with a nil
message pointer. -/
def sampleEnvNilMsg : RemoteEnv :=
  { sampleEnv with
    checkNameAvailability := Except.ok { nameAvailable := some false, message := none } }

/-- Environment whose availability check call itself fails. -/
def sampleEnvCheckFail : RemoteEnv :=
  { sampleEnv with checkNameAvailability := Except.error "net down" }

/-- Environment whose `CreateOrUpdate` call fails. -/
def sampleEnvCOUFail : RemoteEnv :=
  { sampleEnv with createOrUpdate := Except.error "boom" }

/-- Environment whose `UpdateApplicationSettings` call fails. -/
def sampleEnvUASFail : RemoteEnv :=
  { sampleEnv with updateApplicationSettings := Except.error "boom" }

/-- Environment whose `Get` reports not-found. -/
def sampleEnvGetNF : RemoteEnv :=
  { sampleEnv with get := GetOutcome.err "gone" true }

/-- Environment whose `Delete` reports not-found. -/
def sampleEnvDeleteNF : RemoteEnv :=
  { sampleEnv with delete := DeleteOutcome.err "gone" true }

/-- Environment whose `Delete` fails with a non-404 error. -/
def sampleEnvDeleteFail : RemoteEnv :=
  { sampleEnv with delete := DeleteOutcome.err "denied" false }

/-- A sample configuration carrying two connection strings with distinct names. -/
def sampleDataCS : ResourceData :=
  { sampleData with
    connection_string :=
      [ { name := "db", value := "v1", connType := "SQLAzure" },
        { name := "cache", value := "v2", connType := "RedisCache" } ] }

/-! ### Claim theorems -/

/-- C9: in the map built by `expandFunctionAppAppSettings`, the five implicit keys
always carry the configuration-derived values — the three connection-string keys
equal `storage_connection_string`, `FUNCTIONS_EXTENSION_VERSION` equals
`version`, and `WEBSITE_CONTENTSHARE` equals `name ++ "-content"` — overriding
any user-supplied `app_settings` entry with the same key. -/
theorem funcapp_implicit_settings_values (d : ResourceData) :
    mapLookup (expandFunctionAppAppSettings d) "AzureWebJobsDashboard" =
        some d.storage_connection_string ∧
    mapLookup (expandFunctionAppAppSettings d) "AzureWebJobsStorage" =
        some d.storage_connection_string ∧
    mapLookup (expandFunctionAppAppSettings d) "FUNCTIONS_EXTENSION_VERSION" =
        some d.version ∧
    mapLookup (expandFunctionAppAppSettings d) "WEBSITE_CONTENTSHARE" =
        some (d.name ++ "-content") ∧
    mapLookup (expandFunctionAppAppSettings d) "WEBSITE_CONTENTAZUREFILECONNECTIONSTRING" =
        some d.storage_connection_string :=
  lookup_expandFunctionAppAppSettings d

/-- C1: every app-settings map recorded in an `UpdateApplicationSettings` call of
Update contains the five implicitly-managed keys, and after every successful full
Read (one whose `Get` returned the resource) all five keys are absent from the
`app_settings` map stored back into the user-visible configuration. -/
theorem funcapp_implicit_keys_sent_and_stripped :
    (∀ (dOld dNew : ResourceData) (env : RemoteEnv) (rg nm : String)
       (s : List (String × String)),
       RemoteCall.updateApplicationSettings rg nm s ∈
         (resourceArmFunctionAppUpdate dOld dNew env).2 →
       mapHasKey s "AzureWebJobsDashboard" = true ∧
       mapHasKey s "AzureWebJobsStorage" = true ∧
       mapHasKey s "FUNCTIONS_EXTENSION_VERSION" = true ∧
       mapHasKey s "WEBSITE_CONTENTSHARE" = true ∧
       mapHasKey s "WEBSITE_CONTENTAZUREFILECONNECTIONSTRING" = true) ∧
    (∀ (d : ResourceData) (env : RemoteEnv) (site : Site) (d' : ResourceData)
       (tr : List RemoteCall),
       env.get = GetOutcome.ok site →
       resourceArmFunctionAppRead d env = (OpResult.ok d', tr) →
       mapLookup d'.app_settings "AzureWebJobsDashboard" = none ∧
       mapLookup d'.app_settings "AzureWebJobsStorage" = none ∧
       mapLookup d'.app_settings "FUNCTIONS_EXTENSION_VERSION" = none ∧
       mapLookup d'.app_settings "WEBSITE_CONTENTSHARE" = none ∧
       mapLookup d'.app_settings "WEBSITE_CONTENTAZUREFILECONNECTIONSTRING" = none) := by
  constructor
  · intro dOld dNew env rg nm s hmem
    have hs := update_uas_payload dOld dNew env rg nm s hmem
    subst hs
    obtain ⟨l1, l2, l3, l4, l5⟩ := lookup_expandFunctionAppAppSettings dNew
    refine ⟨?_, ?_, ?_, ?_, ?_⟩ <;> simp [mapHasKey, l1, l2, l3, l4, l5]
  · intro d env site d' tr hget hread
    obtain ⟨props, hlas, happ⟩ := read_ok_app_settings d env site d' tr hget hread
    rw [happ]
    refine ⟨?_, ?_, ?_, ?_, ?_⟩
    · rw [mapLookup_mapDelete_ne _ _ _ (by decide), mapLookup_mapDelete_ne _ _ _ (by decide),
        mapLookup_mapDelete_ne _ _ _ (by decide), mapLookup_mapDelete_ne _ _ _ (by decide),
        mapLookup_mapDelete_self]
    · rw [mapLookup_mapDelete_ne _ _ _ (by decide), mapLookup_mapDelete_ne _ _ _ (by decide),
        mapLookup_mapDelete_ne _ _ _ (by decide), mapLookup_mapDelete_self]
    · rw [mapLookup_mapDelete_ne _ _ _ (by decide), mapLookup_mapDelete_ne _ _ _ (by decide),
        mapLookup_mapDelete_self]
    · rw [mapLookup_mapDelete_ne _ _ _ (by decide), mapLookup_mapDelete_self]
    · rw [mapLookup_mapDelete_self]

/-- Witness for C1 at the sample configuration and environment. -/
theorem funcapp_implicit_keys_sent_and_stripped_witness :
    (mapHasKey sampleSent "AzureWebJobsDashboard" = true ∧
     mapHasKey sampleSent "AzureWebJobsStorage" = true ∧
     mapHasKey sampleSent "FUNCTIONS_EXTENSION_VERSION" = true ∧
     mapHasKey sampleSent "WEBSITE_CONTENTSHARE" = true ∧
     mapHasKey sampleSent "WEBSITE_CONTENTAZUREFILECONNECTIONSTRING" = true) ∧
    (mapLookup sampleReadState.app_settings "AzureWebJobsDashboard" = none ∧
     mapLookup sampleReadState.app_settings "AzureWebJobsStorage" = none ∧
     mapLookup sampleReadState.app_settings "FUNCTIONS_EXTENSION_VERSION" = none ∧
     mapLookup sampleReadState.app_settings "WEBSITE_CONTENTSHARE" = none ∧
     mapLookup sampleReadState.app_settings "WEBSITE_CONTENTAZUREFILECONNECTIONSTRING" =
       none) := by
  constructor
  · exact funcapp_implicit_keys_sent_and_stripped.1 sampleOld sampleData sampleEnv
      "rg" "app1" sampleSent (by decide)
  · exact funcapp_implicit_keys_sent_and_stripped.2 sampleData sampleEnv sampleSite
      sampleReadState (resourceArmFunctionAppRead sampleData sampleEnv).2 (by decide)
      (by decide)

/-- C7: for a connection-string list with pairwise-distinct names, flattening the
expanded map yields a list with exactly the same set of (name, value, type)
triples as the input. -/
theorem funcapp_connstrings_roundtrip (d : ResourceData)
    (h : (d.connection_string.map ConnectionStringEntry.name).Nodup) :
    ∀ x : ConnectionStringEntry,
      (x ∈ flattenFunctionAppConnectionStrings (expandFunctionAppConnectionStrings d) ↔
       x ∈ d.connection_string) := by
  intro x
  rw [flatten_expand_connStrings d h]

/-- Witness for C7 at a two-entry connection-string list. -/
theorem funcapp_connstrings_roundtrip_witness :
    ({ name := "db", value := "v1", connType := "SQLAzure" } : ConnectionStringEntry) ∈
      flattenFunctionAppConnectionStrings (expandFunctionAppConnectionStrings sampleDataCS) :=
  (funcapp_connstrings_roundtrip sampleDataCS (by decide)
    { name := "db", value := "v1", connType := "SQLAzure" }).mpr (by decide)

/-- C6: Delete issues the delete call with `deleteMetrics = true` and
`deleteEmptyServerFarm = false`; a not-found response (and success) yields no
error, and any other failure is returned as an error. -/
theorem funcapp_delete_flags_and_idempotence (d : ResourceData) (env : RemoteEnv)
    (rid : ResourceID) (hparse : parseAzureResourceID d.id = Except.ok rid) :
    (resourceArmFunctionAppDelete d env).2 =
      [RemoteCall.delete rid.resourceGroup rid.sitesName true false] ∧
    (env.delete = DeleteOutcome.ok → (resourceArmFunctionAppDelete d env).1 = OpResult.ok ()) ∧
    (∀ e, env.delete = DeleteOutcome.err e true →
      (resourceArmFunctionAppDelete d env).1 = OpResult.ok ()) ∧
    (∀ e, env.delete = DeleteOutcome.err e false →
      (resourceArmFunctionAppDelete d env).1 = OpResult.error (AppError.raw e)) :=
  delete_spec d env rid hparse

/-- Witness for C6: a not-found delete of the sample app succeeds after the
single fixed-flag call. -/
theorem funcapp_delete_flags_and_idempotence_witness :
    (resourceArmFunctionAppDelete sampleData sampleEnvDeleteNF).2 =
      [RemoteCall.delete "rg" "app1" true false] ∧
    (resourceArmFunctionAppDelete sampleData sampleEnvDeleteNF).1 = OpResult.ok () := by
  have h := funcapp_delete_flags_and_idempotence sampleData sampleEnvDeleteNF
    { resourceGroup := "rg", sitesName := "app1" } rfl
  exact ⟨h.1, h.2.2.1 "gone" rfl⟩

/-- C5: a not-found `Get` makes Read clear the id and return no error; a non-404
`Get` failure, or a failure of any of the three follow-up list/get calls, makes
Read return an error. -/
theorem funcapp_read_notfound_and_errors (d : ResourceData) (env : RemoteEnv)
    (rid : ResourceID) (hparse : parseAzureResourceID d.id = Except.ok rid) :
    (∀ e, env.get = GetOutcome.err e true →
      resourceArmFunctionAppRead d env =
        (OpResult.ok { d with id := "" }, [RemoteCall.get rid.resourceGroup rid.sitesName])) ∧
    (∀ e, env.get = GetOutcome.err e false →
      (resourceArmFunctionAppRead d env).1 =
        OpResult.error (AppError.wrapped "making Read request on AzureRM Function App"
          rid.sitesName e)) ∧
    (∀ site e, env.get = GetOutcome.ok site →
      env.listApplicationSettings = Except.error e →
      (resourceArmFunctionAppRead d env).1 =
        OpResult.error (AppError.wrapped "making Read request on AzureRM Function App AppSettings"
          rid.sitesName e)) ∧
    (∀ site props e, env.get = GetOutcome.ok site →
      env.listApplicationSettings = Except.ok props →
      env.listConnectionStrings = Except.error e →
      (resourceArmFunctionAppRead d env).1 =
        OpResult.error
          (AppError.wrapped "making Read request on AzureRM Function App ConnectionStrings"
            rid.sitesName e)) ∧
    (∀ site props csProps e, env.get = GetOutcome.ok site →
      env.listApplicationSettings = Except.ok props →
      env.listConnectionStrings = Except.ok csProps →
      env.getConfiguration = Except.error e →
      (resourceArmFunctionAppRead d env).1 =
        OpResult.error
          (AppError.wrapped "making Read request on AzureRM Function App Configuration"
            rid.sitesName e)) := by
  refine ⟨?_, ?_, ?_, ?_, ?_⟩
  · intro e hget
    exact read_notFound_spec d env rid hparse e hget
  · intro e hget
    rw [read_getFail_spec d env rid hparse e hget]
  · intro site e hget hlas
    rw [read_lasFail_spec d env rid hparse site hget e hlas]
  · intro site props e hget hlas hlcs
    rw [read_lcsFail_spec d env rid hparse site hget props hlas e hlcs]
  · intro site props csProps e hget hlas hlcs hcfg
    rw [read_cfgFail_spec d env rid hparse site hget props hlas csProps hlcs e hcfg]

/-- Witness for C5: a not-found read of the sample app clears the id without an
error. -/
theorem funcapp_read_notfound_and_errors_witness :
    resourceArmFunctionAppRead sampleData sampleEnvGetNF =
      (OpResult.ok { sampleData with id := "" }, [RemoteCall.get "rg" "app1"]) :=
  (funcapp_read_notfound_and_errors sampleData sampleEnvGetNF
    { resourceGroup := "rg", sitesName := "app1" } rfl).1 "gone" rfl

/-- C4: when one of the three targeted update calls fails, Update returns an
error immediately after that call — the trace is exactly the earlier successful
calls followed by the failed one, so no later sub-resource call is issued, no
final Read occurs, and nothing undoes the earlier updates. -/
theorem funcapp_update_partial_failure (dOld dNew : ResourceData) (env : RemoteEnv)
    (rid : ResourceID) (hparse : parseAzureResourceID dNew.id = Except.ok rid) :
    (∀ e, (dOld.app_settings ≠ dNew.app_settings ∨ dOld.version ≠ dNew.version) →
      env.updateApplicationSettings = Except.error e →
      resourceArmFunctionAppUpdate dOld dNew env =
        (OpResult.error
           (AppError.wrapped "updating Application Settings for Function App" rid.sitesName e),
         [RemoteCall.updateApplicationSettings rid.resourceGroup rid.sitesName
            (expandFunctionAppAppSettings dNew)])) ∧
    (∀ e, env.updateApplicationSettings = Except.ok () →
      dOld.site_config ≠ dNew.site_config →
      env.createOrUpdateConfiguration = Except.error e →
      resourceArmFunctionAppUpdate dOld dNew env =
        (OpResult.error
           (AppError.wrapped "updating Configuration for Function App" rid.sitesName e),
         (if dOld.app_settings ≠ dNew.app_settings ∨ dOld.version ≠ dNew.version then
            [RemoteCall.updateApplicationSettings rid.resourceGroup rid.sitesName
               (expandFunctionAppAppSettings dNew)]
          else []) ++
         [RemoteCall.createOrUpdateConfiguration rid.resourceGroup rid.sitesName
            (expandFunctionAppSiteConfig dNew)])) ∧
    (∀ e, env.updateApplicationSettings = Except.ok () →
      env.createOrUpdateConfiguration = Except.ok () →
      dOld.connection_string ≠ dNew.connection_string →
      env.updateConnectionStrings = Except.error e →
      resourceArmFunctionAppUpdate dOld dNew env =
        (OpResult.error
           (AppError.wrapped "updating Connection Strings for App Service" rid.sitesName e),
         ((if dOld.app_settings ≠ dNew.app_settings ∨ dOld.version ≠ dNew.version then
             [RemoteCall.updateApplicationSettings rid.resourceGroup rid.sitesName
                (expandFunctionAppAppSettings dNew)]
           else []) ++
          (if dOld.site_config ≠ dNew.site_config then
             [RemoteCall.createOrUpdateConfiguration rid.resourceGroup rid.sitesName
                (expandFunctionAppSiteConfig dNew)]
           else [])) ++
         [RemoteCall.updateConnectionStrings rid.resourceGroup rid.sitesName
            (expandFunctionAppConnectionStrings dNew)])) := by
  refine ⟨?_, ?_, ?_⟩
  · intro e hch he
    exact update_appSettingsFail_spec dOld dNew env rid hparse hch e he
  · intro e h1 hch he
    exact update_siteConfigFail_spec dOld dNew env rid hparse h1 hch e he
  · intro e h1 h2 hch he
    exact update_connStringsFail_spec dOld dNew env rid hparse h1 h2 hch e he

/-- Witness for C4: a failing app-settings call aborts the sample update after
exactly one remote call, with a wrapped error. -/
theorem funcapp_update_partial_failure_witness :
    resourceArmFunctionAppUpdate sampleOld sampleData sampleEnvUASFail =
      (OpResult.error
         (AppError.wrapped "updating Application Settings for Function App" "app1" "boom"),
       [RemoteCall.updateApplicationSettings "rg" "app1" sampleSent]) :=
  (funcapp_update_partial_failure sampleOld sampleData sampleEnvUASFail
    { resourceGroup := "rg", sitesName := "app1" } rfl).1 "boom" (Or.inl (by decide)) rfl

/-- C3 counterexample: with `app_settings` unchanged but `version` changed, the
update still issues an `UpdateApplicationSettings` call, contradicting "exactly
when that sub-resource's configuration attribute changed". -/
theorem funcapp_update_calls_counterexample :
    sampleOldV.app_settings = sampleData.app_settings ∧
    traceHasUpdateAppSettings
      (resourceArmFunctionAppUpdate sampleOldV sampleData sampleEnv).2 = true := by
  decide

/-- C3 (amended): with a parseable id and the first two update calls succeeding,
the app-settings call is issued exactly when `app_settings` or `version` changed,
the site-config call exactly when `site_config` changed, and the
connection-strings call exactly when `connection_string` changed. -/
theorem funcapp_update_targeted_calls_iff (dOld dNew : ResourceData) (env : RemoteEnv)
    (rid : ResourceID) (hparse : parseAzureResourceID dNew.id = Except.ok rid)
    (h1 : env.updateApplicationSettings = Except.ok ())
    (h2 : env.createOrUpdateConfiguration = Except.ok ()) :
    (traceHasUpdateAppSettings (resourceArmFunctionAppUpdate dOld dNew env).2 = true ↔
       (dOld.app_settings ≠ dNew.app_settings ∨ dOld.version ≠ dNew.version)) ∧
    (traceHasUpdateSiteConfig (resourceArmFunctionAppUpdate dOld dNew env).2 = true ↔
       dOld.site_config ≠ dNew.site_config) ∧
    (traceHasUpdateConnStrings (resourceArmFunctionAppUpdate dOld dNew env).2 = true ↔
       dOld.connection_string ≠ dNew.connection_string) :=
  update_calls_iff dOld dNew env rid hparse h1 h2

/-- Witness for the amended C3 at the version-only change. -/
theorem funcapp_update_targeted_calls_iff_witness :
    traceHasUpdateAppSettings
      (resourceArmFunctionAppUpdate sampleOldV sampleData sampleEnv).2 = true :=
  (funcapp_update_targeted_calls_iff sampleOldV sampleData sampleEnv
    { resourceGroup := "rg", sitesName := "app1" } rfl rfl rfl).1.mpr (Or.inr (by decide))

/-- C2 counterexample: when the availability check reports the name taken but the
response carries a nil message pointer, Create dereferences nil and panics
instead of returning an error. -/
theorem funcapp_create_gate_counterexample :
    sampleEnvNilMsg.checkNameAvailability =
      Except.ok { nameAvailable := some false, message := none } ∧
    (resourceArmFunctionAppCreate sampleOld sampleData sampleEnvNilMsg).1 =
      OpResult.panic ∧
    OpResult.isError (resourceArmFunctionAppCreate sampleOld sampleData sampleEnvNilMsg).1 =
      false :=
  ⟨rfl, by decide, by decide⟩

/-- C2 (amended): a failed availability check yields a wrapped error with no
create-or-update call; an unavailable name stops Create after the availability
call — with an error when the message is populated and a panic when it is nil —
and the create-or-update request is issued only when (and immediately after) the
check succeeded and reported the name available. -/
theorem funcapp_create_availability_gate (dOld dNew : ResourceData) (env : RemoteEnv) :
    (∀ e, env.checkNameAvailability = Except.error e →
       resourceArmFunctionAppCreate dOld dNew env =
         (OpResult.error (AppError.wrapped "checking if the name was available" dNew.name e),
          [RemoteCall.checkNameAvailability dNew.name])) ∧
    (∀ avail, env.checkNameAvailability = Except.ok avail →
       avail.nameAvailable = some false →
       (resourceArmFunctionAppCreate dOld dNew env).2 =
         [RemoteCall.checkNameAvailability dNew.name] ∧
       (∀ msg, avail.message = some msg →
         OpResult.isError (resourceArmFunctionAppCreate dOld dNew env).1 = true) ∧
       (avail.message = none →
         (resourceArmFunctionAppCreate dOld dNew env).1 = OpResult.panic)) ∧
    (∀ rg nm payload, RemoteCall.createOrUpdate rg nm payload ∈
         (resourceArmFunctionAppCreate dOld dNew env).2 →
       ∃ avail, env.checkNameAvailability = Except.ok avail ∧
         avail.nameAvailable = some true) ∧
    (∀ avail, env.checkNameAvailability = Except.ok avail →
       avail.nameAvailable = some true →
       ∃ rest, (resourceArmFunctionAppCreate dOld dNew env).2 =
         RemoteCall.checkNameAvailability dNew.name ::
         RemoteCall.createOrUpdate dNew.resource_group_name dNew.name
           (createSiteEnvelope dNew) :: rest) := by
  refine ⟨?_, ?_, ?_, ?_⟩
  · intro e hc
    exact create_checkFail_spec dOld dNew env e hc
  · intro avail hc hna
    obtain ⟨htr, hmsg, hnil⟩ := create_unavailable_spec dOld dNew env avail hc hna
    refine ⟨htr, ?_, hnil⟩
    intro msg hm
    rw [hmsg msg hm]
    rfl
  · intro rg nm payload hmem
    exact create_not_available_no_cou dOld dNew env rg nm payload hmem
  · intro avail hc hna
    exact create_available_trace dOld dNew env avail hc hna

/-- Witness for the amended C2: a failing check blocks creation of the sample
app, and an available name leads straight to the create-or-update request. -/
theorem funcapp_create_availability_gate_witness :
    (resourceArmFunctionAppCreate sampleOld sampleData sampleEnvCheckFail =
       (OpResult.error
          (AppError.wrapped "checking if the name was available" "app1" "net down"),
        [RemoteCall.checkNameAvailability "app1"])) ∧
    (∃ rest, (resourceArmFunctionAppCreate sampleOld sampleData sampleEnv).2 =
       RemoteCall.checkNameAvailability "app1" ::
       RemoteCall.createOrUpdate "rg" "app1" (createSiteEnvelope sampleData) :: rest) := by
  constructor
  · exact (funcapp_create_availability_gate sampleOld sampleData sampleEnvCheckFail).1
      "net down" rfl
  · exact (funcapp_create_availability_gate sampleOld sampleData sampleEnv).2.2.2
      { nameAvailable := some true, message := none } rfl rfl

/-- C8 counterexample: a failing `CreateOrUpdate` in Create is surfaced as the
raw remote error, with no operation or resource-name context. -/
theorem funcapp_error_wrapping_counterexample :
    (resourceArmFunctionAppCreate sampleOld sampleData sampleEnvCOUFail).1 =
      OpResult.error (AppError.raw "boom") ∧
    AppError.isWrapped (AppError.raw "boom") = false := by
  decide

/-- C8 (amended): remote failures of the availability check in Create and of the
seven calls made by Update and Read are wrapped with an operation description and
the resource name; failures of `CreateOrUpdate`, the completion wait and the
confirming `Get` in Create, and of the delete call in Delete, are returned raw. -/
theorem funcapp_error_wrapping (dOld dNew d : ResourceData) (env : RemoteEnv)
    (rid : ResourceID) :
    (∀ e, env.checkNameAvailability = Except.error e →
       (resourceArmFunctionAppCreate dOld dNew env).1 =
         OpResult.error (AppError.wrapped "checking if the name was available" dNew.name e)) ∧
    (∀ avail e, env.checkNameAvailability = Except.ok avail →
       avail.nameAvailable = some true → env.createOrUpdate = Except.error e →
       (resourceArmFunctionAppCreate dOld dNew env).1 = OpResult.error (AppError.raw e)) ∧
    (∀ avail e, env.checkNameAvailability = Except.ok avail →
       avail.nameAvailable = some true → env.createOrUpdate = Except.ok () →
       env.waitForCompletion = Except.error e →
       (resourceArmFunctionAppCreate dOld dNew env).1 = OpResult.error (AppError.raw e)) ∧
    (∀ avail e nf, env.checkNameAvailability = Except.ok avail →
       avail.nameAvailable = some true → env.createOrUpdate = Except.ok () →
       env.waitForCompletion = Except.ok () → env.get = GetOutcome.err e nf →
       (resourceArmFunctionAppCreate dOld dNew env).1 = OpResult.error (AppError.raw e)) ∧
    (∀ e, parseAzureResourceID dNew.id = Except.ok rid →
       (dOld.app_settings ≠ dNew.app_settings ∨ dOld.version ≠ dNew.version) →
       env.updateApplicationSettings = Except.error e →
       (resourceArmFunctionAppUpdate dOld dNew env).1 =
         OpResult.error
           (AppError.wrapped "updating Application Settings for Function App"
             rid.sitesName e)) ∧
    (∀ e, parseAzureResourceID dNew.id = Except.ok rid →
       env.updateApplicationSettings = Except.ok () →
       dOld.site_config ≠ dNew.site_config →
       env.createOrUpdateConfiguration = Except.error e →
       (resourceArmFunctionAppUpdate dOld dNew env).1 =
         OpResult.error
           (AppError.wrapped "updating Configuration for Function App" rid.sitesName e)) ∧
    (∀ e, parseAzureResourceID dNew.id = Except.ok rid →
       env.updateApplicationSettings = Except.ok () →
       env.createOrUpdateConfiguration = Except.ok () →
       dOld.connection_string ≠ dNew.connection_string →
       env.updateConnectionStrings = Except.error e →
       (resourceArmFunctionAppUpdate dOld dNew env).1 =
         OpResult.error
           (AppError.wrapped "updating Connection Strings for App Service" rid.sitesName e)) ∧
    (∀ e, parseAzureResourceID d.id = Except.ok rid → env.get = GetOutcome.err e false →
       (resourceArmFunctionAppRead d env).1 =
         OpResult.error
           (AppError.wrapped "making Read request on AzureRM Function App" rid.sitesName e)) ∧
    (∀ site e, parseAzureResourceID d.id = Except.ok rid → env.get = GetOutcome.ok site →
       env.listApplicationSettings = Except.error e →
       (resourceArmFunctionAppRead d env).1 =
         OpResult.error
           (AppError.wrapped "making Read request on AzureRM Function App AppSettings"
             rid.sitesName e)) ∧
    (∀ site props e, parseAzureResourceID d.id = Except.ok rid →
       env.get = GetOutcome.ok site → env.listApplicationSettings = Except.ok props →
       env.listConnectionStrings = Except.error e →
       (resourceArmFunctionAppRead d env).1 =
         OpResult.error
           (AppError.wrapped "making Read request on AzureRM Function App ConnectionStrings"
             rid.sitesName e)) ∧
    (∀ site props csProps e, parseAzureResourceID d.id = Except.ok rid →
       env.get = GetOutcome.ok site → env.listApplicationSettings = Except.ok props →
       env.listConnectionStrings = Except.ok csProps →
       env.getConfiguration = Except.error e →
       (resourceArmFunctionAppRead d env).1 =
         OpResult.error
           (AppError.wrapped "making Read request on AzureRM Function App Configuration"
             rid.sitesName e)) ∧
    (∀ e, parseAzureResourceID d.id = Except.ok rid →
       env.delete = DeleteOutcome.err e false →
       (resourceArmFunctionAppDelete d env).1 = OpResult.error (AppError.raw e)) := by
  refine ⟨?_, ?_, ?_, ?_, ?_, ?_, ?_, ?_, ?_, ?_, ?_, ?_⟩
  · intro e hc
    rw [create_checkFail_spec dOld dNew env e hc]
  · intro avail e hc hna he
    rw [create_couFail_spec dOld dNew env avail hc hna e he]
  · intro avail e hc hna hcou he
    rw [create_waitFail_spec dOld dNew env avail hc hna hcou e he]
  · intro avail e nf hc hna hcou hwait he
    rw [create_getFail_spec dOld dNew env avail hc hna hcou hwait e nf he]
  · intro e hparse hch he
    rw [update_appSettingsFail_spec dOld dNew env rid hparse hch e he]
  · intro e hparse h1 hch he
    rw [update_siteConfigFail_spec dOld dNew env rid hparse h1 hch e he]
  · intro e hparse h1 h2 hch he
    rw [update_connStringsFail_spec dOld dNew env rid hparse h1 h2 hch e he]
  · intro e hparse hget
    rw [read_getFail_spec d env rid hparse e hget]
  · intro site e hparse hget hlas
    rw [read_lasFail_spec d env rid hparse site hget e hlas]
  · intro site props e hparse hget hlas hlcs
    rw [read_lcsFail_spec d env rid hparse site hget props hlas e hlcs]
  · intro site props csProps e hparse hget hlas hlcs hcfg
    rw [read_cfgFail_spec d env rid hparse site hget props hlas csProps hlcs e hcfg]
  · intro e hparse hd
    exact (delete_spec d env rid hparse).2.2.2 e hd

/-- Witness for the amended C8: a wrapped availability-check failure, a raw
create-or-update failure, and a raw delete failure, at the sample inputs. -/
theorem funcapp_error_wrapping_witness :
    (resourceArmFunctionAppCreate sampleOld sampleData sampleEnvCheckFail).1 =
      OpResult.error
        (AppError.wrapped "checking if the name was available" "app1" "net down") ∧
    (resourceArmFunctionAppCreate sampleOld sampleData sampleEnvCOUFail).1 =
      OpResult.error (AppError.raw "boom") ∧
    (resourceArmFunctionAppUpdate sampleOld sampleData sampleEnvUASFail).1 =
      OpResult.error
        (AppError.wrapped "updating Application Settings for Function App" "app1" "boom") ∧
    (resourceArmFunctionAppDelete sampleData sampleEnvDeleteFail).1 =
      OpResult.error (AppError.raw "denied") := by
  refine ⟨?_, ?_, ?_, ?_⟩
  · exact (funcapp_error_wrapping sampleOld sampleData sampleData sampleEnvCheckFail
      { resourceGroup := "rg", sitesName := "app1" }).1 "net down" rfl
  · exact (funcapp_error_wrapping sampleOld sampleData sampleData sampleEnvCOUFail
      { resourceGroup := "rg", sitesName := "app1" }).2.1
      { nameAvailable := some true, message := none } "boom" rfl rfl rfl
  · exact (funcapp_error_wrapping sampleOld sampleData sampleData sampleEnvUASFail
      { resourceGroup := "rg", sitesName := "app1" }).2.2.2.2.1 "boom" rfl
      (Or.inl (by decide)) rfl
  · exact (funcapp_error_wrapping sampleOld sampleData sampleData sampleEnvDeleteFail
      { resourceGroup := "rg", sitesName := "app1" }).2.2.2.2.2.2.2.2.2.2.2 "denied" rfl rfl

/-- C10: when every successful availability response has `NameAvailable`
populated, and `Message` populated whenever the name is unavailable, the
nil-dereference (panic) branch of Create is unreachable. -/
theorem funcapp_create_populated_no_panic (dOld dNew : ResourceData) (env : RemoteEnv)
    (hp : ∀ avail, env.checkNameAvailability = Except.ok avail →
      avail.nameAvailable.isSome = true ∧
      (avail.nameAvailable = some false → avail.message.isSome = true)) :
    (resourceArmFunctionAppCreate dOld dNew env).1 ≠ OpResult.panic :=
  create_panic_free dOld dNew env hp

/-- Witness for C10 at the sample environment, whose availability response is
fully populated. -/
theorem funcapp_create_populated_no_panic_witness :
    (resourceArmFunctionAppCreate sampleOld sampleData sampleEnv).1 ≠ OpResult.panic := by
  apply funcapp_create_populated_no_panic
  intro avail h
  have h2 : Except.ok ({ nameAvailable := some true, message := none } :
      AvailabilityResponse) = Except.ok avail := h
  obtain rfl := Except.ok.inj h2
  exact ⟨rfl, fun hfalse => absurd hfalse (by decide)⟩

end FunctionApp
